import Mathlib

/-!
# Tiled editor shell: undo commands and main-window file handling

A shallow embedding of the parts of the Tiled map editor that the verified
properties are about:

* `ChangeTileAnimation::swap` (src/tiled/changetileanimation.cpp),
* the `SetTilesetFileName` undo command (src/tiled/tilesetdock.cpp),
* `MainWindow::setRecentFile`, `openFile`, `saveFile`, `saveFileAs`,
  `confirmSave`, `confirmAllSave`, `addExternalTileset`, `exportAs`, `export_`,
  `writeSettings`, `openLastFiles` (src/tiled/mainwindow.cpp),
* `SelectSameTileTool::tilePositionChanged` and `mousePressed`
  (src/tiled/selectsametiletool.cpp).

Stateful C++ is written as explicit state passing.  Everything the program
asks of the outside world (file system, map readers and writers, the user
answering a dialog) is a field of `World`; a theorem quantified over `World`
holds for every behaviour of the outside world.  The keys of the recent files
and of the stored session are looked up below the groups of `mSettings` that
are open at the time, as `QSettings` does.
-/

namespace Tiled

/-! ## Definitions -/

/-- Qt strings; `QString::isEmpty()` is rendered as `= ""`. -/
abbrev QString := String

/-! ### ChangeTileAnimation (changetileanimation.cpp) -/

/-- One animation frame of a tile (libtiled `Frame`: a tile id and a duration in ms). -/
structure Frame where
  tileId : Int
  duration : Int
  deriving DecidableEq, Repr

/-- The part of a libtiled `Tile` that `ChangeTileAnimation` touches. -/
structure Tile where
  mFrames : List Frame
  deriving DecidableEq, Repr

/-- Accessor `Tile::frames()`. -/
def Tile.frames (t : Tile) : List Frame := t.mFrames

/-- Setter `Tile::setFrames(frames)`. -/
def Tile.setFrames (_t : Tile) (frames : List Frame) : Tile := { mFrames := frames }

/-- Notifications sent by the undo commands modelled here. -/
inductive Notification where
  | resetTileAnimations
  | tileAnimationChanged
  | tilesetFileNameChanged
  deriving DecidableEq, Repr

/-- A `ChangeTileAnimation` command together with the tile `mTile` points to and the
notifications sent so far (oldest first). -/
structure ChangeTileAnimation where
  mTile : Tile
  mFrames : List Frame
  notified : List Notification
  deriving DecidableEq, Repr

/-- Constructor `ChangeTileAnimation(mapDocument, tile, frames)`: stores `frames`. -/
def ChangeTileAnimation.new (tile : Tile) (frames : List Frame) : ChangeTileAnimation :=
  { mTile := tile, mFrames := frames, notified := [] }

/-- Method `ChangeTileAnimation::swap()` (changetileanimation.cpp:44-52). -/
def ChangeTileAnimation.swap (c : ChangeTileAnimation) : ChangeTileAnimation :=
  let frames := c.mTile.frames
  let tile := c.mTile.setFrames c.mFrames
  { mTile := tile
    mFrames := frames
    notified := c.notified ++ [Notification.resetTileAnimations, Notification.tileAnimationChanged] }

/-- The command's `redo()` is `swap()`. -/
def ChangeTileAnimation.redo (c : ChangeTileAnimation) : ChangeTileAnimation := c.swap

/-- The command's `undo()` is `swap()`. -/
def ChangeTileAnimation.undo (c : ChangeTileAnimation) : ChangeTileAnimation := c.swap

/-! ### SetTilesetFileName (tilesetdock.cpp) -/

/-- The part of a libtiled `Tileset` that `SetTilesetFileName` touches. -/
structure Tileset where
  mFileName : QString
  deriving DecidableEq, Repr

/-- Accessor `Tileset::fileName()`. -/
def Tileset.fileName (t : Tileset) : QString := t.mFileName

/-- A `SetTilesetFileName` command together with the tileset `mTileset` points to and
the notifications sent so far. -/
structure SetTilesetFileName where
  mTileset : Tileset
  mFileName : QString
  text : String
  notified : List Notification
  deriving DecidableEq, Repr

/-- Constructor `SetTilesetFileName(mapDocument, tileset, fileName)` (tilesetdock.cpp:81-94). -/
def SetTilesetFileName.new (tileset : Tileset) (fileName : QString) : SetTilesetFileName :=
  { mTileset := tileset
    mFileName := fileName
    text := if fileName = "" then "Import Tileset" else "Export Tileset"
    notified := [] }

/-- Method `SetTilesetFileName::swap()` (tilesetdock.cpp:100-105);
`MapDocument::setTilesetFileName` sets the tileset's file name and announces the change. -/
def SetTilesetFileName.swap (c : SetTilesetFileName) : SetTilesetFileName :=
  let previousFileName := c.mTileset.fileName
  { c with
    mTileset := { mFileName := c.mFileName }
    mFileName := previousFileName
    notified := c.notified ++ [Notification.tilesetFileNameChanged] }

/-- The command's `redo()` is `swap()` (tilesetdock.cpp:97). -/
def SetTilesetFileName.redo (c : SetTilesetFileName) : SetTilesetFileName := c.swap

/-- The command's `undo()` is `swap()` (tilesetdock.cpp:96). -/
def SetTilesetFileName.undo (c : SetTilesetFileName) : SetTilesetFileName := c.swap

/-! ### Documents and the document manager (documentmanager.h) -/

/-- A map file format, identified by its name filter. -/
structure MapFormat where
  nameFilter : QString
  deriving DecidableEq, Repr

/-- A command on the undo stack of a map document. -/
inductive UndoCommand where
  /-- Command `AddTileset(mapDocument, tileset)`. -/
  | addTileset (tileset : Tileset)
  deriving DecidableEq, Repr

/-- An undo macro: its text, the number that fills the `%n` of the text, and the commands
pushed between `beginMacro` and `endMacro`. -/
structure UndoMacro where
  text : String
  count : Nat
  children : List UndoCommand
  deriving DecidableEq, Repr

/-- An entry of an undo stack: a single command or a macro. -/
inductive UndoEntry where
  | command (c : UndoCommand)
  | macroEntry (m : UndoMacro)
  deriving DecidableEq, Repr

/-- The undo stack of a map document (`QUndoStack`): its entries, oldest first, and the
macro that is being composed, if any. -/
structure UndoStack where
  entries : List UndoEntry := []
  openMacro : Option UndoMacro := none
  deriving DecidableEq, Repr

/-- The part of a `MapView` that is stored with the session: the zoom scale and the
positions of the two scroll bars. -/
structure MapView where
  scale : Rat := 1
  horizontalSliderPosition : Int := 0
  verticalSliderPosition : Int := 0
  deriving DecidableEq, Repr

/-- The part of a `MapDocument` that the main window's file handling reads or writes,
together with the map view that the document manager keeps for the document
(`DocumentManager::viewForDocument`). -/
structure MapDocument where
  mFileName : QString
  modified : Bool
  mWriterFormat : Option MapFormat
  mLastExportFileName : QString := ""
  mExportFormat : Option MapFormat := none
  tilesets : List Tileset := []
  undoStack : UndoStack := {}
  mCurrentLayerIndex : Int := 0
  layerCount : Int := 0
  mapView : MapView := {}
  deriving DecidableEq, Repr

/-- Accessor `MapDocument::fileName()`. -/
def MapDocument.fileName (d : MapDocument) : QString := d.mFileName

/-- Accessor `MapDocument::isModified()`. -/
def MapDocument.isModified (d : MapDocument) : Bool := d.modified

/-- Accessor `MapDocument::writerFormat()`. -/
def MapDocument.writerFormat (d : MapDocument) : Option MapFormat := d.mWriterFormat

/-- Setter `MapDocument::setWriterFormat(format)`. -/
def MapDocument.setWriterFormat (d : MapDocument) (format : Option MapFormat) : MapDocument :=
  { d with mWriterFormat := format }

/-- Accessor `MapDocument::lastExportFileName()`. -/
def MapDocument.lastExportFileName (d : MapDocument) : QString := d.mLastExportFileName

/-- Setter `MapDocument::setLastExportFileName(fileName)`. -/
def MapDocument.setLastExportFileName (d : MapDocument) (fileName : QString) : MapDocument :=
  { d with mLastExportFileName := fileName }

/-- Accessor `MapDocument::exportFormat()`. -/
def MapDocument.exportFormat (d : MapDocument) : Option MapFormat := d.mExportFormat

/-- Setter `MapDocument::setExportFormat(format)`. -/
def MapDocument.setExportFormat (d : MapDocument) (format : Option MapFormat) : MapDocument :=
  { d with mExportFormat := format }

/-- Accessor `MapDocument::currentLayerIndex()`. -/
def MapDocument.currentLayerIndex (d : MapDocument) : Int := d.mCurrentLayerIndex

/-- Setter `MapDocument::setCurrentLayerIndex(index)`. -/
def MapDocument.setCurrentLayerIndex (d : MapDocument) (index : Int) : MapDocument :=
  { d with mCurrentLayerIndex := index }

/-- The open documents (`mDocuments`) and the index of the tab that is shown
(`-1` when there is none).  A `MapDocument *` that points into the manager is
modelled by the index of the document in `mDocuments`. -/
structure DocumentManager where
  mDocuments : List MapDocument
  currentIndex : Int
  deriving DecidableEq, Repr

/-- Accessor `DocumentManager::documents()` (documentmanager.h:152). -/
def DocumentManager.documents (dm : DocumentManager) : List MapDocument := dm.mDocuments

/-- Accessor `DocumentManager::documentCount()` (documentmanager.h:94). -/
def DocumentManager.documentCount (dm : DocumentManager) : Int := dm.mDocuments.length

/-- Modelled from the spec: `DocumentManager::currentDocument` (documentmanager.cpp is not
part of the sources): "Returns the current map document, or 0 when there is none." -/
def DocumentManager.currentDocument (dm : DocumentManager) : Option MapDocument :=
  if 0 ≤ dm.currentIndex then dm.mDocuments[dm.currentIndex.toNat]? else none

/-- Linear search behind `findDocument`: the index (counted from `i`) of the first
document with the given file name, `-1` when there is none. -/
def findDocumentFrom (fileName : QString) : List MapDocument → Nat → Int
  | [], _ => -1
  | d :: ds, i => if d.fileName = fileName then (i : Int) else findDocumentFrom fileName ds (i + 1)

/-- Modelled from the spec: `DocumentManager::findDocument` (documentmanager.cpp is not
part of the sources): "Searches for a document with the given fileName and returns its
index. Returns -1 when the document isn't open." -/
def DocumentManager.findDocument (dm : DocumentManager) (fileName : QString) : Int :=
  findDocumentFrom fileName dm.mDocuments 0

/-- Modelled from the spec: `DocumentManager::switchToDocument(int)` (documentmanager.cpp
is not part of the sources): "Switches to the map document at the given index."  An index
at which there is no document selects nothing. -/
def DocumentManager.switchToDocument (dm : DocumentManager) (index : Int) : DocumentManager :=
  if 0 ≤ index ∧ index < dm.documentCount then { dm with currentIndex := index } else dm

/-- Modelled from the spec: `DocumentManager::addDocument` (documentmanager.cpp is not
part of the sources): "Adds the new or opened mapDocument to the document manager."  The
document is appended and its tab is shown. -/
def DocumentManager.addDocument (dm : DocumentManager) (mapDocument : MapDocument) :
    DocumentManager :=
  { mDocuments := dm.mDocuments ++ [mapDocument], currentIndex := dm.mDocuments.length }

/-- Replaces the current document by `d` (writes through the `mMapDocument` pointer);
nothing happens when there is no current document. -/
def DocumentManager.setCurrentDocument (dm : DocumentManager) (d : MapDocument) :
    DocumentManager :=
  if 0 ≤ dm.currentIndex then
    { dm with mDocuments := dm.mDocuments.set dm.currentIndex.toNat d }
  else dm

/-! ### The outside world -/

/-- Buttons of a `QMessageBox` (`QMessageBox::StandardButton`). -/
inductive StandardButton where
  | Ok | Save | Discard | Cancel | Yes | No | Abort | Ignore
  deriving DecidableEq, Repr

/-- A `MapFormat *` used for writing: a format registered with the format helper, or the
`TmxMapFormat` object that is local to the exporting function. -/
inductive MapFormatPtr where
  | registered (format : MapFormat)
  | localTmx
  deriving DecidableEq, Repr

/-- What the main window did to the outside world, in the order it happened. -/
inductive Event where
  /-- Call of `MapDocument::load(fileName, ..)`. -/
  | load (fileName : QString)
  /-- Call of `MapDocument::save(fileName, ..)` on the current document. -/
  | save (fileName : QString)
  /-- Message box `QMessageBox::critical` with the given title. -/
  | critical (title : String)
  /-- The "Unsaved Changes" question, asked while tab `current` was shown. -/
  | unsavedChanges (current : Int)
  /-- The dialog `QFileDialog::getSaveFileName`. -/
  | getSaveFileName
  /-- The "Extension Mismatch" question. -/
  | extensionMismatch
  /-- Message box `QMessageBox::warning` with the given title, and the button pressed. -/
  | warning (title : String) (answer : StandardButton)
  /-- The dialog `QFileDialog::getOpenFileNames` and the file names chosen. -/
  | getOpenFileNames (fileNames : List QString)
  /-- Call of `Tiled::readTileset(fileName, ..)` and the tileset read, if any. -/
  | readTileset (fileName : QString) (result : Option Tileset)
  /-- Call of `write(map, fileName)` on a map format, and whether it succeeded. -/
  | write (format : MapFormatPtr) (fileName : QString) (ok : Bool)
  /-- Message shown in the status bar. -/
  | statusMessage (text : String)
  deriving DecidableEq, Repr

/-- The outside world: file system, map readers and writers, and the user.  An answer may
depend on everything that happened before (the trace of events so far). -/
structure World where
  /-- Result of `QFileInfo(fileName).canonicalFilePath()`. -/
  canonicalFilePath : QString → QString
  /-- Result of `QFileInfo(fileName).path()`. -/
  path : QString → QString
  /-- Result of `QFileInfo(fileName).fileName()`. -/
  fileNameOf : QString → QString
  /-- Result of `MapDocument::load`: the document read, or `none` (a null pointer). -/
  load : List Event → QString → Option MapFormat → Option MapDocument
  /-- Result of `MapDocument::save`: whether it succeeded, and the document afterwards. -/
  save : List Event → MapDocument → QString → Bool × MapDocument
  /-- Effect of `DocumentManager::checkTilesetColumns` on the document just added. -/
  checkTilesetColumns : List Event → MapDocument → MapDocument
  /-- The button the user presses in the "Unsaved Changes" box. -/
  unsavedChanges : List Event → StandardButton
  /-- The file name and the name filter the user chooses in the save dialog, given the
  suggested file name and the filter selected at first. -/
  getSaveFileName : List Event → QString → QString → QString × QString
  /-- The button the user presses in the "Extension Mismatch" box. -/
  extensionMismatch : List Event → StandardButton
  /-- Result of `fileNameMatchesNameFilter(fileName, nameFilter)`. -/
  fileNameMatchesNameFilter : QString → QString → Bool
  /-- Result of `FormatHelper::formatByNameFilter(nameFilter)`. -/
  formatByNameFilter : QString → Option MapFormat
  /-- Result of `TmxMapFormat().nameFilter()`. -/
  tmxNameFilter : QString
  /-- Result of `TsxTilesetFormat().nameFilter()`. -/
  tsxNameFilter : QString
  /-- The file names and the name filter the user chooses in the open dialog, given the
  start directory and the filter selected at first. -/
  getOpenFileNames : List Event → QString → QString → List QString × QString
  /-- Result of `Tiled::readTileset`: the tileset read, or `none` (a null pointer). -/
  readTileset : List Event → QString → Option Tileset
  /-- The button the user presses in the "Error Reading Tileset" warning. -/
  tilesetErrorAnswer : List Event → StandardButton
  /-- Result of `QFileInfo(fileName).baseName()`. -/
  baseName : QString → QString
  /-- Result of `QFileInfo(fileName).completeSuffix()`. -/
  completeSuffix : QString → QString
  /-- The extension that the regular expression of `exportAs` finds in a name filter. -/
  filterExtension : QString → QString
  /-- Result of `formatByNameFilter(nameFilter)` on the helper for writable formats. -/
  exportFormatByNameFilter : QString → Option MapFormat
  /-- Result of `formats()` on the helper for writable formats. -/
  exportFormats : List MapFormat
  /-- Result of `nameFilter.contains(suffix, Qt::CaseInsensitive)`. -/
  containsCaseInsensitive : QString → QString → Bool
  /-- Result of `TmxMapFormat::supportsFile(fileName)`. -/
  tmxSupportsFile : QString → Bool
  /-- Result of `outputFiles(map, fileName)` on a map format. -/
  outputFiles : MapFormatPtr → MapDocument → QString → List QString
  /-- Result of `QFile::exists(fileName)`. -/
  fileExists : List Event → QString → Bool
  /-- The button the user presses in the "Overwrite Files" warning. -/
  overwriteAnswer : List Event → StandardButton
  /-- Result of `write(map, fileName)` on a map format. -/
  write : List Event → MapFormatPtr → MapDocument → QString → Bool
  /-- Result of `QString::number` on a zoom scale. -/
  numberOfScale : Rat → QString
  /-- Result of `QString::number` on an integer. -/
  numberOfInt : Int → QString
  /-- Result of `QString::toDouble()`. -/
  toDouble : QString → Rat
  /-- Result of `QString::toInt()`. -/
  toInt : QString → Int

/-! ### MainWindow (mainwindow.cpp) -/

/-- Constant `MainWindow::MaxRecentFiles` (mainwindow.h:251). -/
def MaxRecentFiles : Nat := 8

/-- Further keys of `mSettings`: the filters used last. -/
structure Settings where
  lastUsedTilesetFilter : Option QString := none
  lastUsedExportFilter : QString := ""
  deriving DecidableEq, Repr

/-- The paths that `Preferences::lastPath` keeps for exported files and external tilesets. -/
structure Preferences where
  lastExportedFilePath : QString := ""
  lastExternalTilesetPath : QString := ""
  deriving DecidableEq, Repr

/-- The state of the main window that file handling reads or writes: the document
manager, the setting `recentFiles/fileNames`, the events so far (oldest first), the
filters used last and the preferences.  `mSettingsGroup` are the groups of `mSettings`
that are open (`QSettings::beginGroup`), outermost first; a key is looked up below them.
Every other key of `mSettings` is kept under its full key (the sections of the key,
outermost first), newest entry first, by the type the program stores under it:
`stringLists` for string lists, `strings` for strings and `numbers` for integers (a key
is valid exactly when it has an entry). -/
structure MainWindow where
  mDocumentManager : DocumentManager
  recentFileNames : List QString
  trace : List Event
  mSettings : Settings := {}
  mPreferences : Preferences := {}
  mSettingsGroup : List QString := []
  stringLists : List (List QString × List QString) := []
  strings : List (List QString × QString) := []
  numbers : List (List QString × Int) := []
  deriving DecidableEq, Repr

/-- The member `mMapDocument`: `mapDocumentChanged` (mainwindow.cpp:1790-1803) keeps it equal
to the document manager's current document. -/
def MainWindow.mMapDocument (s : MainWindow) : Option MapDocument :=
  s.mDocumentManager.currentDocument

/-- Appends an event to the trace. -/
def MainWindow.record (s : MainWindow) (e : Event) : MainWindow :=
  { s with trace := s.trace ++ [e] }

/-- Method `QSettings::beginGroup(group)` on `mSettings`. -/
def MainWindow.beginGroup (s : MainWindow) (group : QString) : MainWindow :=
  { s with mSettingsGroup := s.mSettingsGroup ++ [group] }

/-- Method `QSettings::endGroup()` on `mSettings`. -/
def MainWindow.endGroup (s : MainWindow) : MainWindow :=
  { s with mSettingsGroup := s.mSettingsGroup.dropLast }

/-- The newest value stored under a full key, `none` when nothing is stored there. -/
def lookupKey {α : Type} (path : List QString) : List (List QString × α) → Option α
  | [] => none
  | (key, value) :: rest => if key = path then some value else lookupKey path rest

/-- Call `mSettings.value(key).toStringList()` for a key given by its sections: the key is
looked up below the groups that are open; an invalid value gives the empty list. -/
def MainWindow.stringListValue (s : MainWindow) (key : List QString) : List QString :=
  let path := s.mSettingsGroup ++ key
  if path = ["recentFiles", "fileNames"] then s.recentFileNames
  else (lookupKey path s.stringLists).getD []

/-- Call `mSettings.setValue(key, value)` with a string list: the value is stored below
the groups that are open. -/
def MainWindow.setStringListValue (s : MainWindow) (key : List QString)
    (value : List QString) : MainWindow :=
  let path := s.mSettingsGroup ++ key
  if path = ["recentFiles", "fileNames"] then { s with recentFileNames := value }
  else { s with stringLists := (path, value) :: s.stringLists }

/-- Call `mSettings.value(key).toString()`: the key is looked up below the groups that are
open; an invalid value gives the empty string. -/
def MainWindow.stringValue (s : MainWindow) (key : List QString) : QString :=
  (lookupKey (s.mSettingsGroup ++ key) s.strings).getD ""

/-- Call `mSettings.setValue(key, value)` with a string. -/
def MainWindow.setStringValue (s : MainWindow) (key : List QString) (value : QString) :
    MainWindow :=
  { s with strings := (s.mSettingsGroup ++ key, value) :: s.strings }

/-- Call `mSettings.value(key)` for a key that holds an integer: `none` when the value is
not valid (`QVariant::isValid`), else its `toInt()`. -/
def MainWindow.numberValue (s : MainWindow) (key : List QString) : Option Int :=
  lookupKey (s.mSettingsGroup ++ key) s.numbers

/-- Call `mSettings.remove(key)` for a key that holds an integer. -/
def MainWindow.removeNumber (s : MainWindow) (key : List QString) : MainWindow :=
  { s with numbers := s.numbers.filter (fun entry => decide (entry.1 ≠ s.mSettingsGroup ++ key)) }

/-- Method `MainWindow::recentFiles()` (mainwindow.cpp:1497-1501): the value of the key
`recentFiles/fileNames`, looked up below the groups that are open. -/
def MainWindow.recentFiles (s : MainWindow) : List QString :=
  s.stringListValue ["recentFiles", "fileNames"]

/-- The three statements that store the recent files (mainwindow.cpp:1526-1528 and
1534-1536): `beginGroup("recentFiles")`, `setValue("fileNames", files)`, `endGroup()`. -/
def MainWindow.storeRecentFiles (s : MainWindow) (files : List QString) : MainWindow :=
  let s1 := s.beginGroup "recentFiles"
  let s2 := s1.setStringListValue ["fileNames"] files
  s2.endGroup

/-- Method `MainWindow::fileDialogStartLocation()` (mainwindow.cpp:1503-1507). -/
def MainWindow.fileDialogStartLocation (w : World) (s : MainWindow) : QString :=
  match s.recentFiles with
  | [] => ""
  | first :: _ => w.path first

/-- Method `QStringList::removeAll(value)`. -/
def removeAll (value : QString) (files : List QString) : List QString :=
  files.filter (fun f => decide (f ≠ value))

/-- The loop `while (files.size() > MaxRecentFiles) files.removeLast();`
(mainwindow.cpp:1523-1524); `fuel` bounds the number of iterations. -/
def removeLastLoop : Nat → List QString → List QString
  | 0, files => files
  | fuel + 1, files =>
    if files.length > MaxRecentFiles then removeLastLoop fuel files.dropLast else files

/-- Method `MainWindow::setRecentFile(fileName)` (mainwindow.cpp:1512-1530).  The loop
shortens the list by one entry per iteration, so `files.length` iterations suffice. -/
def MainWindow.setRecentFile (w : World) (s : MainWindow) (fileName : QString) : MainWindow :=
  let canonicalFilePath := w.canonicalFilePath fileName
  if canonicalFilePath = "" then s
  else
    let files := s.recentFiles
    let files := removeAll canonicalFilePath files
    let files := canonicalFilePath :: files
    let files := removeLastLoop files.length files
    s.storeRecentFiles files

/-- Method `MainWindow::clearRecentFiles()` (mainwindow.cpp:1532-1538). -/
def MainWindow.clearRecentFiles (s : MainWindow) : MainWindow :=
  s.storeRecentFiles []

/-- Method `MainWindow::openFile(fileName, format)` (mainwindow.cpp:743-768): the returned
flag and the state afterwards.  `checkTilesetColumns(mapDocument)` acts on the document just
added, which `addDocument` made the current one. -/
def MainWindow.openFile (w : World) (s : MainWindow) (fileName : QString)
    (format : Option MapFormat) : Bool × MainWindow :=
  if fileName = "" then (false, s)
  else
    let documentIndex := s.mDocumentManager.findDocument fileName
    if documentIndex ≠ -1 then
      (true, { s with mDocumentManager := s.mDocumentManager.switchToDocument documentIndex })
    else
      let s1 := s.record (Event.load fileName)
      match w.load s.trace fileName format with
      | none => (false, s1.record (Event.critical "Error Opening Map"))
      | some mapDocument =>
        let dm := s1.mDocumentManager.addDocument mapDocument
        let dm := dm.setCurrentDocument (w.checkTilesetColumns s1.trace mapDocument)
        let s2 := { s1 with mDocumentManager := dm }
        (true, s2.setRecentFile w fileName)

/-- Method `MainWindow::saveFile(fileName)` (mainwindow.cpp:868-884). -/
def MainWindow.saveFile (w : World) (s : MainWindow) (fileName : QString) : Bool × MainWindow :=
  match s.mMapDocument with
  | none => (false, s)
  | some doc =>
    if fileName = "" then (false, s)
    else
      let saved := w.save s.trace doc fileName
      let s1 := { s with mDocumentManager := s.mDocumentManager.setCurrentDocument saved.2 }
      let s1 := s1.record (Event.save fileName)
      if !saved.1 then (false, s1.record (Event.critical "Error Saving Map"))
      else (true, s1.setRecentFile w fileName)

/-- The end of `MainWindow::saveFileAs()` (mainwindow.cpp:945-948): sets the writer format
of the current document and saves.  `setWriterFormat` through a null `mMapDocument` is
rendered as no change (the action is enabled only while there is a current document). -/
def MainWindow.saveWithFilter (w : World) (s : MainWindow) (fileName selectedFilter : QString) :
    Bool × MainWindow :=
  let format := w.formatByNameFilter selectedFilter
  let s1 :=
    match s.mMapDocument with
    | some doc =>
      { s with mDocumentManager :=
          s.mDocumentManager.setCurrentDocument (doc.setWriterFormat format) }
    | none => s
  s1.saveFile w fileName

/-- Method `MainWindow::saveFileAs()` (mainwindow.cpp:899-949). -/
def MainWindow.saveFileAs (w : World) (s : MainWindow) : Bool × MainWindow :=
  let tmxFilter := w.tmxNameFilter
  let selectedFilter : QString :=
    match s.mMapDocument with
    | some doc =>
      match doc.writerFormat with
      | some format => format.nameFilter
      | none => ""
    | none => ""
  let selectedFilter := if selectedFilter = "" then tmxFilter else selectedFilter
  let suggestedFileName : QString :=
    match s.mMapDocument with
    | some doc =>
      if doc.fileName ≠ "" then doc.fileName
      else s.fileDialogStartLocation w ++ "/" ++ "untitled.tmx"
    | none => s.fileDialogStartLocation w ++ "/" ++ "untitled.tmx"
  let chosen := w.getSaveFileName s.trace suggestedFileName selectedFilter
  let fileName := chosen.1
  let selectedFilter := chosen.2
  let s1 := s.record Event.getSaveFileName
  if fileName = "" then (false, s1)
  else if !w.fileNameMatchesNameFilter (w.fileNameOf fileName) selectedFilter then
    let answer := w.extensionMismatch s1.trace
    let s2 := s1.record Event.extensionMismatch
    if answer ≠ StandardButton.Yes then (false, s2)
    else s2.saveWithFilter w fileName selectedFilter
  else s1.saveWithFilter w fileName selectedFilter

/-- Method `MainWindow::saveFile()` without argument (mainwindow.cpp:886-897). -/
def MainWindow.saveCurrentFile (w : World) (s : MainWindow) : Bool × MainWindow :=
  match s.mMapDocument with
  | none => (false, s)
  | some doc =>
    let currentFileName := doc.fileName
    if currentFileName = "" then s.saveFileAs w else s.saveFile w currentFileName

/-- Dereferences a `MapDocument *` argument: `none` is the null pointer, `some i` points
to `documents().at(i)`. -/
def MainWindow.documentAt (s : MainWindow) (mapDocument : Option Nat) : Option MapDocument :=
  match mapDocument with
  | none => none
  | some i => s.mDocumentManager.documents[i]?

/-- Method `MainWindow::confirmSave(mapDocument)` (mainwindow.cpp:974-993). -/
def MainWindow.confirmSave (w : World) (s : MainWindow) (mapDocument : Option Nat) :
    Bool × MainWindow :=
  match mapDocument, s.documentAt mapDocument with
  | some i, some doc =>
    if !doc.isModified then (true, s)
    else
      let s1 := { s with mDocumentManager := s.mDocumentManager.switchToDocument (i : Int) }
      let ret := w.unsavedChanges s1.trace
      let s2 := s1.record (Event.unsavedChanges s1.mDocumentManager.currentIndex)
      match ret with
      | StandardButton.Save => s2.saveCurrentFile w
      | StandardButton.Discard => (true, s2)
      | _ => (false, s2)
  | _, _ => (true, s)

/-- The loop of `MainWindow::confirmAllSave()` (mainwindow.cpp:997-1000) from index `i` on;
`none` when `fuel` iterations were not enough to leave the loop. -/
def confirmAllSaveLoop (w : World) : Nat → Nat → MainWindow → Option (Bool × MainWindow)
  | 0, _, _ => none
  | fuel + 1, i, s =>
    if (i : Int) < s.mDocumentManager.documentCount then
      let r := s.confirmSave w (some i)
      if !r.1 then some (false, r.2) else confirmAllSaveLoop w fuel (i + 1) r.2
    else some (true, s)

/-- Method `MainWindow::confirmAllSave()` (mainwindow.cpp:995-1003), run with one more
iteration than there are documents. -/
def MainWindow.confirmAllSave (w : World) (s : MainWindow) : Option (Bool × MainWindow) :=
  confirmAllSaveLoop w (s.mDocumentManager.mDocuments.length + 1) 0 s

/-! ### Concrete inputs used to run the definitions -/

/-- A document with the given file name and modified flag, everything else as in a new
document. -/
def exampleDocument (fileName : QString) (modified : Bool) : MapDocument :=
  { mFileName := fileName, modified := modified, mWriterFormat := none }

/-- A world in which every file name is its own canonical path, every file but
"missing.tmx" can be read, every file but "readonly.tmx" can be written, and the user
discards the first unsaved document and cancels afterwards. -/
def exampleWorld : World :=
  { canonicalFilePath := fun f => f
    path := fun f => f
    fileNameOf := fun f => f
    load := fun _ f _ => if f = "missing.tmx" then none else some (exampleDocument f false)
    save := fun _ d f =>
      if f = "readonly.tmx" then (false, d) else (true, { d with mFileName := f, modified := false })
    checkTilesetColumns := fun _ d => d
    unsavedChanges := fun t => if t.length = 0 then StandardButton.Discard else StandardButton.Cancel
    getSaveFileName := fun _ _ selectedFilter => ("untitled.tmx", selectedFilter)
    extensionMismatch := fun _ => StandardButton.Yes
    fileNameMatchesNameFilter := fun _ _ => true
    formatByNameFilter := fun _ => none
    tmxNameFilter := "Tiled map files (*.tmx)"
    tsxNameFilter := "Tiled tileset files (*.tsx)"
    getOpenFileNames := fun _ _ selectedFilter => (["a.tsx", "missing.tsx", "b.tsx"], selectedFilter)
    readTileset := fun _ f => if f = "missing.tsx" then none else some { mFileName := f }
    tilesetErrorAnswer := fun _ => StandardButton.Ignore
    baseName := fun f => f
    completeSuffix := fun _ => "tmx"
    filterExtension := fun _ => "tmx"
    exportFormatByNameFilter := fun _ => none
    exportFormats := []
    containsCaseInsensitive := fun _ _ => false
    tmxSupportsFile := fun _ => true
    outputFiles := fun _ _ f => [f]
    fileExists := fun _ f => decide (f = "untitled.tmx")
    overwriteAnswer := fun _ => StandardButton.No
    write := fun _ _ _ f => decide (f ≠ "readonly.tmx")
    numberOfScale := fun q => toString q
    numberOfInt := fun i => toString i
    toDouble := fun _ => 1
    toInt := fun _ => 0 }

/-- The main window right after start: no document, no recent file, nothing happened. -/
def emptyWindow : MainWindow :=
  { mDocumentManager := { mDocuments := [], currentIndex := -1 }
    recentFileNames := []
    trace := [] }

/-! ### Named states used to state the properties of `confirmSave` and `confirmAllSave` -/

/-- The state in which the answer to the "Unsaved Changes" question about the document at
index `i` arrives: that document is the current one and the question is on the trace. -/
def MainWindow.unsavedChangesShown (s : MainWindow) (i : Nat) : MainWindow :=
  { s with
    mDocumentManager := { mDocuments := s.mDocumentManager.mDocuments, currentIndex := (i : Int) }
    trace := s.trace ++ [Event.unsavedChanges (i : Int)] }

/-- The state after `confirmSave` has run on the `k` documents at the indices
`i, i + 1, .., i + k - 1`, one after the other in this order, starting in state `s`. -/
def confirmedInOrder (w : World) : Nat → Nat → MainWindow → MainWindow
  | 0, _, s => s
  | k + 1, i, s => confirmedInOrder w k (i + 1) (s.confirmSave w (some i)).2

/-- What `confirmSave` returns for the document at index `i + j` when it is asked after the
documents at the indices `i, .., i + j - 1`. -/
def confirmVerdict (w : World) (i : Nat) (s : MainWindow) (j : Nat) : Bool :=
  ((confirmedInOrder w j i s).confirmSave w (some (i + j))).1

/-! ### SelectSameTileTool (selectsametiletool.cpp) -/

/-- A tile position or pixel (`QPoint`). -/
abbrev QPoint := Int × Int

/-- A region (`QRegion`) as the finite set of the points it covers. -/
abbrev QRegion := Finset QPoint

/-- Modelled from the spec: a cell of a tile layer (libtiled is not part of the sources), "a
cell reference into a tileset": the tile referred to (none for an empty cell) and how it is
flipped.  Two cells are equal when all of this is equal. -/
structure Cell where
  tile : Option Nat
  flippedHorizontally : Bool
  flippedVertically : Bool
  flippedAntiDiagonally : Bool
  deriving DecidableEq, Repr

/-- Modelled from the spec: a tile layer (libtiled is not part of the sources), "a 2D grid of
cell references into tilesets": its width, its height, and the cell at every column `x` and
row `y`. -/
structure TileLayer where
  mWidth : Nat
  mHeight : Nat
  cells : Nat → Nat → Cell

/-- Modelled from the spec: `TileLayer::contains(point)`, whether the point lies in the
grid. -/
def TileLayer.contains (l : TileLayer) (p : QPoint) : Bool :=
  decide (0 ≤ p.1) && decide (0 ≤ p.2) && decide (p.1 < (l.mWidth : Int)) &&
    decide (p.2 < (l.mHeight : Int))

/-- Modelled from the spec: `TileLayer::cellAt(point)`, the cell at a point of the grid. -/
def TileLayer.cellAt (l : TileLayer) (p : QPoint) : Cell :=
  l.cells p.1.toNat p.2.toNat

/-- Modelled from the spec: `TileLayer::region(condition)`, the positions of the grid whose
cell satisfies the condition. -/
def TileLayer.region (l : TileLayer) (condition : Cell → Bool) : QRegion :=
  ((Finset.range l.mWidth ×ˢ Finset.range l.mHeight).filter
    fun q => condition (l.cells q.1 q.2) = true).image fun q => (((q.1 : Int), (q.2 : Int)) : QPoint)

/-- Modelled from the spec: the undo command `ChangeSelectedArea` (changeselectedarea.cpp
is not part of the sources), "a paired do/undo mutation object": it holds the selection
that its next redo or undo puts in place. -/
structure ChangeSelectedArea where
  mSelection : QRegion
  deriving DecidableEq

/-- Mouse buttons (`Qt::MouseButton`). -/
inductive MouseButton where
  | NoButton | LeftButton | RightButton | MiddleButton | BackButton | ForwardButton
  deriving DecidableEq, Repr

/-- Keyboard modifier flags (`Qt::KeyboardModifiers`), a bit set. -/
abbrev KeyboardModifiers := Nat

/-- Flag `Qt::NoModifier`. -/
def NoModifier : KeyboardModifiers := 0x00000000

/-- Flag `Qt::ShiftModifier`. -/
def ShiftModifier : KeyboardModifiers := 0x02000000

/-- Flag `Qt::ControlModifier`. -/
def ControlModifier : KeyboardModifiers := 0x04000000

/-- Flag `Qt::AltModifier`. -/
def AltModifier : KeyboardModifiers := 0x08000000

/-- The tool together with what it reaches through its pointers: the selected layer when
it is a tile layer (`currentTileLayer()`), the region shown by the brush item, and the
selected area and the undo stack of the map document. -/
structure SelectSameTileTool where
  currentTileLayer : Option TileLayer
  mSelectedRegion : QRegion
  brushTileRegion : QRegion
  selectedArea : QRegion
  undoStack : List ChangeSelectedArea

/-- Method `SelectSameTileTool::tilePositionChanged(tilePos)` (selectsametiletool.cpp:41-55). -/
def SelectSameTileTool.tilePositionChanged (t : SelectSameTileTool) (tilePos : QPoint) :
    SelectSameTileTool :=
  match t.currentTileLayer with
  | none => t
  | some tileLayer =>
    let resultRegion : QRegion :=
      if tileLayer.contains tilePos then
        let matchCell := tileLayer.cellAt tilePos
        tileLayer.region (fun cell => decide (cell = matchCell))
      else ∅
    { t with mSelectedRegion := resultRegion, brushTileRegion := resultRegion }

/-- Modelled from the spec: `QUndoStack::push` of a `ChangeSelectedArea` command
(changeselectedarea.cpp is not part of the sources): pushing runs the command's redo, which
puts the command's selection in place and keeps the previous one for undo. -/
def SelectSameTileTool.pushChangeSelectedArea (t : SelectSameTileTool) (selection : QRegion) :
    SelectSameTileTool :=
  { t with
    selectedArea := selection
    undoStack := t.undoStack ++ [{ mSelection := t.selectedArea }] }

/-- Method `SelectSameTileTool::mousePressed(event)` (selectsametiletool.cpp:57-87), for the
button and the modifiers of the event. -/
def SelectSameTileTool.mousePressed (t : SelectSameTileTool) (button : MouseButton)
    (modifiers : KeyboardModifiers) : SelectSameTileTool :=
  if button ≠ MouseButton.LeftButton ∧ button ≠ MouseButton.RightButton then t
  else
    let selection : QRegion :=
      if button = MouseButton.LeftButton then
        let selection := t.selectedArea
        if modifiers = ShiftModifier then selection ∪ t.mSelectedRegion
        else if modifiers = ControlModifier then selection \ t.mSelectedRegion
        else if modifiers = (ControlModifier ||| ShiftModifier) then selection ∩ t.mSelectedRegion
        else t.mSelectedRegion
      else ∅
    if selection ≠ t.selectedArea then t.pushChangeSelectedArea selection else t

/-- A layer of three columns and two rows: tile 1 in the first and the last column, tile 2
in the middle column. -/
def exampleLayer : TileLayer :=
  { mWidth := 3
    mHeight := 2
    cells := fun x _ => { tile := some (if x = 1 then 2 else 1), flippedHorizontally := false,
                          flippedVertically := false, flippedAntiDiagonally := false } }

/-- A tool whose region is left over from an earlier layer while no tile layer is selected. -/
def staleTool : SelectSameTileTool :=
  { currentTileLayer := none
    mSelectedRegion := {(0, 0)}
    brushTileRegion := {(0, 0)}
    selectedArea := ∅
    undoStack := [] }

/-! ### Adding external tilesets (mainwindow.cpp) -/

/-- Modelled from the spec: redo of an undo command (addremovetileset.cpp is not part of the
sources), the "do" half of "a paired do/undo mutation object": `AddTileset` adds its
tileset to the map, after the tilesets that are there. -/
def UndoCommand.redo (c : UndoCommand) (d : MapDocument) : MapDocument :=
  match c with
  | UndoCommand.addTileset tileset => { d with tilesets := d.tilesets ++ [tileset] }

/-- Modelled from the spec: `QUndoStack::beginMacro(text)` on the undo stack of the
document: starts composing a macro. -/
def MapDocument.beginMacro (d : MapDocument) (text : String) (count : Nat) : MapDocument :=
  { d with undoStack :=
      { d.undoStack with openMacro := some { text := text, count := count, children := [] } } }

/-- Modelled from the spec: `QUndoStack::push(command)` on the undo stack of the document,
"pushed onto a per-document undo stack": runs the command's redo and keeps the command,
inside the macro that is being composed when there is one. -/
def MapDocument.push (d : MapDocument) (c : UndoCommand) : MapDocument :=
  let d1 := c.redo d
  match d1.undoStack.openMacro with
  | some m =>
    { d1 with undoStack :=
        { d1.undoStack with openMacro := some { m with children := m.children ++ [c] } } }
  | none =>
    { d1 with
      modified := true
      undoStack := { d1.undoStack with entries := d1.undoStack.entries ++ [UndoEntry.command c] } }

/-- Modelled from the spec: `QUndoStack::endMacro()` on the undo stack of the document:
the composed macro becomes one entry of the stack. -/
def MapDocument.endMacro (d : MapDocument) : MapDocument :=
  match d.undoStack.openMacro with
  | some m =>
    { d with
      modified := true
      undoStack :=
        { entries := d.undoStack.entries ++ [UndoEntry.macroEntry m], openMacro := none } }
  | none => d

/-- The loop over the chosen file names in `MainWindow::addExternalTileset`
(mainwindow.cpp:1364-1383), with `size` the number of chosen files and `tilesets` the
tilesets read so far; the first component is `none` when the function returns from
inside the loop. -/
def readTilesetsLoop (w : World) (size : Nat) :
    List QString → List Tileset → MainWindow → Option (List Tileset) × MainWindow
  | [], tilesets, s => (some tilesets, s)
  | fileName :: rest, tilesets, s =>
    let tileset := w.readTileset s.trace fileName
    let s1 := s.record (Event.readTileset fileName tileset)
    match tileset with
    | some tileset => readTilesetsLoop w size rest (tilesets ++ [tileset]) s1
    | none =>
      if size = 1 then (none, s1.record (Event.critical "Error Reading Tileset"))
      else
        let result := w.tilesetErrorAnswer s1.trace
        let s2 := s1.record (Event.warning "Error Reading Tileset" result)
        if result = StandardButton.Abort then (none, s2)
        else readTilesetsLoop w size rest tilesets s2

/-- Method `MainWindow::addExternalTileset()` (mainwindow.cpp:1329-1390). -/
def MainWindow.addExternalTileset (w : World) (s : MainWindow) : MainWindow :=
  match s.mMapDocument with
  | none => s
  | some mapDocument =>
    let selectedFilter := w.tsxNameFilter
    let selectedFilter := s.mSettings.lastUsedTilesetFilter.getD selectedFilter
    let start := s.mPreferences.lastExternalTilesetPath
    let chosen := w.getOpenFileNames s.trace start selectedFilter
    let fileNames := chosen.1
    let selectedFilter := chosen.2
    let s1 := s.record (Event.getOpenFileNames fileNames)
    if fileNames = [] then s1
    else
      let s2 : MainWindow :=
        { s1 with
          mPreferences :=
            { s1.mPreferences with lastExternalTilesetPath := w.path (fileNames.getLastD "") }
          mSettings := { s1.mSettings with lastUsedTilesetFilter := some selectedFilter } }
      match readTilesetsLoop w fileNames.length fileNames [] s2 with
      | (none, s3) => s3
      | (some tilesets, s3) =>
        let mapDocument := mapDocument.beginMacro "Add %n Tileset(s)" tilesets.length
        let mapDocument :=
          tilesets.foldl (fun d tileset => d.push (UndoCommand.addTileset tileset)) mapDocument
        let mapDocument := mapDocument.endMacro
        { s3 with mDocumentManager := s3.mDocumentManager.setCurrentDocument mapDocument }

/-- The file names that the user chooses in the dialog of `addExternalTileset`. -/
def MainWindow.chosenTilesetFiles (w : World) (s : MainWindow) : List QString :=
  (w.getOpenFileNames s.trace s.mPreferences.lastExternalTilesetPath
    (s.mSettings.lastUsedTilesetFilter.getD w.tsxNameFilter)).1

/-- The tileset that an event reports as read, if it is a successful `readTileset`. -/
def Event.tilesetRead : Event → Option Tileset
  | Event.readTileset _ (some tileset) => some tileset
  | _ => none

/-- The file that an event reports as passed to `readTileset`. -/
def Event.tilesetFile : Event → Option QString
  | Event.readTileset fileName _ => some fileName
  | _ => none

/-- The main window with one open, unmodified document "a.tmx". -/
def oneDocumentWindow : MainWindow :=
  { emptyWindow with
    mDocumentManager := { mDocuments := [exampleDocument "a.tmx" false], currentIndex := 0 } }

/-! ### Exporting (mainwindow.cpp) -/

/-- The file name suggested in the export dialog (mainwindow.cpp:1042-1059). -/
def MainWindow.suggestedExportFileName (w : World) (s : MainWindow) (mapDocument : MapDocument) :
    QString :=
  let selectedFilter := s.mSettings.lastUsedExportFilter
  let suggestedFilename := mapDocument.lastExportFileName
  if suggestedFilename = "" then
    let baseName := w.baseName mapDocument.fileName
    let extension := w.filterExtension selectedFilter
    let lastExportedFilePath := s.mPreferences.lastExportedFilePath
    lastExportedFilePath ++ "/" ++ baseName ++ "." ++ extension
  else suggestedFilename

/-- The loop over the writable formats in `exportAs` (mainwindow.cpp:1078-1089): the format
whose name filter contains the suffix, given the format found so far; the outer `none`
when a second format matches (the file extension is not unique). -/
def findFormatBySuffix (w : World) (suffix : QString) :
    List MapFormat → Option MapFormat → Option (Option MapFormat)
  | [], chosenFormat => some chosenFormat
  | format :: rest, chosenFormat =>
    if w.containsCaseInsensitive format.nameFilter suffix then
      match chosenFormat with
      | some _ => none
      | none => findFormatBySuffix w suffix rest (some format)
    else findFormatBySuffix w suffix rest chosenFormat

/-- How `exportAs` chooses the format for a file name and a selected name filter
(mainwindow.cpp:1070-1095): the outer `none` when the file extension is not unique,
`some none` when no format is found, otherwise the format. -/
def chooseExportFormat (w : World) (fileName selectedFilter : QString) :
    Option (Option MapFormatPtr) :=
  let chosenFormat := w.exportFormatByNameFilter selectedFilter
  let suffix := w.completeSuffix fileName
  let found : Option (Option MapFormat) :=
    if chosenFormat = none ∧ suffix ≠ "" then
      findFormatBySuffix w ("*." ++ suffix) w.exportFormats chosenFormat
    else some chosenFormat
  match found with
  | none => none
  | some (some format) => some (some (MapFormatPtr.registered format))
  | some none =>
    if w.tmxSupportsFile fileName then some (some MapFormatPtr.localTmx) else some none

/-- The end of `exportAs` (mainwindow.cpp:1138-1149): remembers path and filter, writes the
map, and on success remembers the export parameters in the current document. -/
def MainWindow.writeAndRemember (w : World) (s : MainWindow) (mapDocument : MapDocument)
    (fileName selectedFilter : QString) (chosenFormat : MapFormatPtr) : MainWindow :=
  let s1 : MainWindow :=
    { s with
      mPreferences := { s.mPreferences with lastExportedFilePath := w.path fileName }
      mSettings := { s.mSettings with lastUsedExportFilter := selectedFilter } }
  let ok := w.write s1.trace chosenFormat mapDocument fileName
  let s2 := s1.record (Event.write chosenFormat fileName ok)
  if !ok then s2.record (Event.critical "Error Exporting Map")
  else
    let mapDocument := mapDocument.setLastExportFileName fileName
    let mapDocument :=
      match chosenFormat with
      | MapFormatPtr.registered format => mapDocument.setExportFormat (some format)
      | MapFormatPtr.localTmx => mapDocument
    { s2 with mDocumentManager := s2.mDocumentManager.setCurrentDocument mapDocument }

/-- The overwrite check of `exportAs` and what follows it (mainwindow.cpp:1104-1149). -/
def MainWindow.confirmOverwriteAndWrite (w : World) (s : MainWindow) (mapDocument : MapDocument)
    (fileName selectedFilter : QString) (chosenFormat : MapFormatPtr) : MainWindow :=
  let outputFiles := w.outputFiles chosenFormat mapDocument fileName
  if outputFiles.length > 0 then
    let overwriteHappens := outputFiles.any (fun outputFile => w.fileExists s.trace outputFile)
    if overwriteHappens then
      let reply := w.overwriteAnswer s.trace
      let s1 := s.record (Event.warning "Overwrite Files" reply)
      if reply ≠ StandardButton.Yes then s1
      else s1.writeAndRemember w mapDocument fileName selectedFilter chosenFormat
    else s.writeAndRemember w mapDocument fileName selectedFilter chosenFormat
  else s.writeAndRemember w mapDocument fileName selectedFilter chosenFormat

/-- Method `MainWindow::exportAs()` (mainwindow.cpp:1033-1150).  It calls itself after a
file name with a non-unique extension was chosen; `fuel` bounds the number of calls, and
`none` means that they were all used up. -/
def MainWindow.exportAs (w : World) : Nat → MainWindow → Option MainWindow
  | 0, _ => none
  | fuel + 1, s =>
    match s.mMapDocument with
    | none => some s
    | some mapDocument =>
      let selectedFilter := s.mSettings.lastUsedExportFilter
      let suggestedFilename := s.suggestedExportFileName w mapDocument
      let chosen := w.getSaveFileName s.trace suggestedFilename selectedFilter
      let fileName := chosen.1
      let selectedFilter := chosen.2
      let s1 := s.record Event.getSaveFileName
      if fileName = "" then some s1
      else
        match chooseExportFormat w fileName selectedFilter with
        | none =>
          MainWindow.exportAs w fuel
            (s1.record (Event.warning "Non-unique file extension" StandardButton.Ok))
        | some none => some (s1.record (Event.critical "Unknown File Format"))
        | some (some chosenFormat) =>
          some (s1.confirmOverwriteAndWrite w mapDocument fileName selectedFilter chosenFormat)

/-- The format that `export_` writes with (mainwindow.cpp:1013-1017): the export format of
the document, or the local TMX format when the document has none. -/
def MapDocument.exportFormatOrTmx (mapDocument : MapDocument) : MapFormatPtr :=
  match mapDocument.exportFormat with
  | some format => MapFormatPtr.registered format
  | none => MapFormatPtr.localTmx

/-- Method `MainWindow::export_()` (mainwindow.cpp:1005-1031); `fuel` is passed on to
`exportAs`. -/
def MainWindow.export_ (w : World) (fuel : Nat) (s : MainWindow) : Option MainWindow :=
  match s.mMapDocument with
  | none => some s
  | some mapDocument =>
    let exportFileName := mapDocument.lastExportFileName
    if exportFileName ≠ "" then
      let exportFormat := mapDocument.exportFormatOrTmx
      let ok := w.write s.trace exportFormat mapDocument exportFileName
      let s1 := s.record (Event.write exportFormat exportFileName ok)
      if ok then some (s1.record (Event.statusMessage ("Exported to " ++ exportFileName)))
      else (s1.record (Event.critical "Error Exporting Map")).exportAs w fuel
    else s.exportAs w fuel

/-- The file name and the name filter that the user chooses in the export dialog. -/
def MainWindow.chosenExport (w : World) (s : MainWindow) (mapDocument : MapDocument) :
    QString × QString :=
  w.getSaveFileName s.trace (s.suggestedExportFileName w mapDocument)
    s.mSettings.lastUsedExportFilter

/-- A world like `exampleWorld` in which the user agrees to overwrite files. -/
def overwritingWorld : World :=
  { exampleWorld with overwriteAnswer := fun _ => StandardButton.Yes }

/-- The export format that `exportAs` leaves in a document after a successful write with
the given format: the format itself, or the old export format for the local TMX format. -/
def exportFormatAfter (mapDocument : MapDocument) : MapFormatPtr → Option MapFormat
  | MapFormatPtr.registered format => some format
  | MapFormatPtr.localTmx => mapDocument.exportFormat

/-! ### The stored session (mainwindow.cpp) -/

/-- The five lists that `writeSettings` builds, one entry per document. -/
structure SessionLists where
  fileList : List QString := []
  mapScales : List QString := []
  scrollX : List QString := []
  scrollY : List QString := []
  selectedLayer : List QString := []
  deriving DecidableEq, Repr

/-- The loop over the documents in `MainWindow::writeSettings` (mainwindow.cpp:1716-1728),
for the documents from index `i` on, in index order. -/
def writeSettingsLoop (w : World) : List MapDocument → SessionLists → SessionLists
  | [], lists => lists
  | document :: rest, lists =>
    let mapView := document.mapView
    let currentLayerIndex := document.currentLayerIndex
    writeSettingsLoop w rest
      { fileList := lists.fileList ++ [document.fileName]
        mapScales := lists.mapScales ++ [w.numberOfScale mapView.scale]
        scrollX := lists.scrollX ++ [w.numberOfInt mapView.horizontalSliderPosition]
        scrollY := lists.scrollY ++ [w.numberOfInt mapView.verticalSliderPosition]
        selectedLayer := lists.selectedLayer ++ [w.numberOfInt currentLayerIndex] }

/-- The part of `MainWindow::writeSettings()` that stores the session
(mainwindow.cpp:1707-1734), inside the group `recentFiles`. -/
def MainWindow.writeSettings (w : World) (s : MainWindow) : MainWindow :=
  let s := s.beginGroup "recentFiles"
  let s :=
    match s.mDocumentManager.currentDocument with
    | some document => s.setStringValue ["lastActive"] document.fileName
    | none => s
  let lists := writeSettingsLoop w s.mDocumentManager.documents {}
  let s := s.setStringListValue ["lastOpenFiles"] lists.fileList
  let s := s.setStringListValue ["mapScale"] lists.mapScales
  let s := s.setStringListValue ["scrollX"] lists.scrollX
  let s := s.setStringListValue ["scrollY"] lists.scrollY
  let s := s.setStringListValue ["selectedLayer"] lists.selectedLayer
  s.endGroup

/-- The loop of the backwards compatibility mode of `openLastFiles`
(mainwindow.cpp:789-790): appends `recentFiles.at(openCount - 1)` while `openCount` counts
down to zero. -/
def appendRecentFiles (recentFiles : List QString) : Nat → List QString → List QString
  | 0, lastOpenFiles => lastOpenFiles
  | openCount + 1, lastOpenFiles =>
    appendRecentFiles recentFiles openCount (lastOpenFiles ++ [recentFiles.getD openCount ""])

/-- What `openLastFiles` does after a file was opened (mainwindow.cpp:814-828): restores
scale, scroll positions and current layer of the current document from the stored
strings. -/
def MainWindow.restoreView (w : World) (s : MainWindow)
    (mapScale scrollX scrollY selectedLayer : QString) : MainWindow :=
  match s.mMapDocument with
  | none => s
  | some mapDocument =>
    let mapView := mapDocument.mapView
    let scale := w.toDouble mapScale
    let mapView := if scale > 0 then { mapView with scale := scale } else mapView
    let hor := w.toInt scrollX
    let ver := w.toInt scrollY
    let mapView :=
      { mapView with horizontalSliderPosition := hor, verticalSliderPosition := ver }
    let mapDocument := { mapDocument with mapView := mapView }
    let layer := w.toInt selectedLayer
    let mapDocument :=
      if layer > 0 ∧ layer < mapDocument.layerCount then mapDocument.setCurrentLayerIndex layer
      else mapDocument
    { s with mDocumentManager := s.mDocumentManager.setCurrentDocument mapDocument }

/-- The loop over the stored files in `MainWindow::openLastFiles` (mainwindow.cpp:803-830)
from index `i` on; `remaining` is the number of iterations left,
`lastOpenFiles.size() - i`.  The loop runs in the state that `openLastFiles` hands over,
in which the group `recentFiles` is open: `openFile`, and through it `recentFiles()` and
`setRecentFile`, find their keys below that group. -/
def openLastFilesLoop (w : World) (lastOpenFiles mapScales scrollX scrollY selectedLayer :
    List QString) : Nat → Nat → MainWindow → MainWindow
  | 0, _, s => s
  | remaining + 1, i, s =>
    if ¬ (i < mapScales.length) then
      openLastFilesLoop w lastOpenFiles mapScales scrollX scrollY selectedLayer remaining (i + 1) s
    else if ¬ (i < scrollX.length) then
      openLastFilesLoop w lastOpenFiles mapScales scrollX scrollY selectedLayer remaining (i + 1) s
    else if ¬ (i < scrollY.length) then
      openLastFilesLoop w lastOpenFiles mapScales scrollX scrollY selectedLayer remaining (i + 1) s
    else if ¬ (i < selectedLayer.length) then
      openLastFilesLoop w lastOpenFiles mapScales scrollX scrollY selectedLayer remaining (i + 1) s
    else
      let opened := s.openFile w (lastOpenFiles.getD i "") none
      let s1 :=
        if opened.1 then
          opened.2.restoreView w (mapScales.getD i "") (scrollX.getD i "") (scrollY.getD i "")
            (selectedLayer.getD i "")
        else opened.2
      openLastFilesLoop w lastOpenFiles mapScales scrollX scrollY selectedLayer remaining (i + 1) s1

/-- The start of `MainWindow::openLastFiles()` (mainwindow.cpp:779-792), run with the
group `recentFiles` open: the file names that the loop goes through, which are the stored
`lastOpenFiles` and, in the backwards compatibility mode (key `recentOpenedFiles` valid),
behind them the first `openCount` recent files in reverse order; the key of the older
version is removed then.  The result is `none` when that mode reads a negative count and
indexes the recent files out of range. -/
def MainWindow.readLastOpenFiles (s : MainWindow) : Option (List QString × MainWindow) :=
  let lastOpenFiles := s.stringListValue ["lastOpenFiles"]
  let openCountVariant := s.numberValue ["recentOpenedFiles"]
  match openCountVariant with
  | some count =>
    let recentFiles := s.stringListValue ["fileNames"]
    let openCount : Int := min count (recentFiles.length : Int)
    if openCount < 0 then none
    else
      some (appendRecentFiles recentFiles openCount.toNat lastOpenFiles,
        s.removeNumber ["recentOpenedFiles"])
  | none => some (lastOpenFiles, s)

/-- Method `MainWindow::openLastFiles()` (mainwindow.cpp:775-838).  The group
`recentFiles` is opened first and closed last, so every key in between, those of the
`openFile` calls of the loop included, is looked up below it.  The result is `none` when
the backwards compatibility mode indexes the recent files out of range. -/
def MainWindow.openLastFiles (w : World) (s : MainWindow) : Option MainWindow :=
  let s := s.beginGroup "recentFiles"
  match s.readLastOpenFiles with
  | none => none
  | some (lastOpenFiles, s1) =>
    let mapScales := s1.stringListValue ["mapScale"]
    let scrollX := s1.stringListValue ["scrollX"]
    let scrollY := s1.stringListValue ["scrollY"]
    let selectedLayer := s1.stringListValue ["selectedLayer"]
    let s2 := openLastFilesLoop w lastOpenFiles mapScales scrollX scrollY selectedLayer
      lastOpenFiles.length 0 s1
    let lastActiveDocument := s2.stringValue ["lastActive"]
    let documentIndex := s2.mDocumentManager.findDocument lastActiveDocument
    let s3 :=
      if documentIndex ≠ -1 then
        { s2 with mDocumentManager := s2.mDocumentManager.switchToDocument documentIndex }
      else s2
    some s3.endGroup

/-- Opening one document of a stored session without any check of the index: the file is
opened and, when that succeeds, the view stored for the document is restored. -/
def MainWindow.openStored (w : World) (s : MainWindow) (document : MapDocument) : MainWindow :=
  let opened := s.openFile w document.fileName none
  if opened.1 then
    opened.2.restoreView w (w.numberOfScale document.mapView.scale)
      (w.numberOfInt document.mapView.horizontalSliderPosition)
      (w.numberOfInt document.mapView.verticalSliderPosition)
      (w.numberOfInt document.currentLayerIndex)
  else opened.2

/-- The last step of `openLastFiles` (mainwindow.cpp:831-835): the document that was
active last becomes the current one when it is open. -/
def MainWindow.switchToLastActive (s : MainWindow) (lastActiveDocument : QString) : MainWindow :=
  if s.mDocumentManager.findDocument lastActiveDocument ≠ -1 then
    { s with mDocumentManager :=
        s.mDocumentManager.switchToDocument (s.mDocumentManager.findDocument lastActiveDocument) }
  else s

/-- A main window with two documents, the second one shown, zoomed and scrolled. -/
def twoDocumentWindow : MainWindow :=
  { emptyWindow with
    mDocumentManager :=
      { mDocuments :=
          [exampleDocument "a.tmx" false,
           { exampleDocument "b.tmx" true with
             mapView := { scale := 2, horizontalSliderPosition := 10, verticalSliderPosition := 20 }
             mCurrentLayerIndex := 1
             layerCount := 3 }]
        currentIndex := 1 } }

/-- A main window with two documents whose settings still hold the key `recentOpenedFiles`
of older versions, with the given count, and one recent file. -/
def legacyWindow (count : Int) : MainWindow :=
  { twoDocumentWindow with
    recentFileNames := ["x.tmx"]
    numbers := [(["recentFiles", "recentOpenedFiles"], count)] }

/-- What reading the given files in order looks like when no failure ends the import,
told from the outside world alone: every file is passed to `readTileset` in the trace at
that point, and after each failure the Abort/Ignore question is asked and its answer
recorded, `trace` being the events before the first file. -/
def importEvents (w : World) : List QString → List Event → List Event
  | [], _ => []
  | fileName :: rest, trace =>
    match w.readTileset trace fileName with
    | some tileset =>
      Event.readTileset fileName (some tileset) ::
        importEvents w rest (trace ++ [Event.readTileset fileName (some tileset)])
    | none =>
      Event.readTileset fileName none ::
        Event.warning "Error Reading Tileset"
          (w.tilesetErrorAnswer (trace ++ [Event.readTileset fileName none])) ::
        importEvents w rest
          (trace ++ [Event.readTileset fileName none] ++
            [Event.warning "Error Reading Tileset"
              (w.tilesetErrorAnswer (trace ++ [Event.readTileset fileName none]))])

/-- The trace right after the file dialog of `addExternalTileset`. -/
def MainWindow.afterTilesetDialog (w : World) (s : MainWindow) : List Event :=
  s.trace ++ [Event.getOpenFileNames (s.chosenTilesetFiles w)]

/-- A world like `exampleWorld` whose user answers Abort when a tileset cannot be read. -/
def abortingWorld : World :=
  { exampleWorld with tilesetErrorAnswer := fun _ => StandardButton.Abort }

/-- Whether the user answers every failure among the given files with Ignore: reading the
files in order, `trace` being the events before the first one, whenever `readTileset`
fails the answer to the Abort/Ignore question asked then is not Abort. -/
def failuresIgnored (w : World) : List QString → List Event → Bool
  | [], _ => true
  | fileName :: rest, trace =>
    match w.readTileset trace fileName with
    | some tileset =>
      failuresIgnored w rest (trace ++ [Event.readTileset fileName (some tileset)])
    | none =>
      decide (w.tilesetErrorAnswer (trace ++ [Event.readTileset fileName none]) ≠
        StandardButton.Abort) &&
      failuresIgnored w rest
        (trace ++ [Event.readTileset fileName none] ++
          [Event.warning "Error Reading Tileset"
            (w.tilesetErrorAnswer (trace ++ [Event.readTileset fileName none]))])

/-- The overwrite question of `exportAs` as events: it is asked, and its answer recorded,
exactly when an output file of the format exists in the given trace. -/
def overwritePrompt (w : World) (trace : List Event) (chosenFormat : MapFormatPtr)
    (mapDocument : MapDocument) (fileName : QString) : List Event :=
  if (w.outputFiles chosenFormat mapDocument fileName).any
      (fun outputFile => w.fileExists trace outputFile) then
    [Event.warning "Overwrite Files" (w.overwriteAnswer trace)]
  else []

/-- Appends events to the trace. -/
def MainWindow.recordAll (s : MainWindow) (events : List Event) : MainWindow :=
  { s with trace := s.trace ++ events }

/-- A world like `overwritingWorld` in which no map can be written. -/
def readOnlyWorld : World :=
  { overwritingWorld with write := fun _ _ _ _ => false }

/-! ## Theorems -/

/-- C1: `ChangeTileAnimation::swap` exchanges the tile's frame list with the command's
stored frame list: with tile frames `T` and stored frames `F` before the call, the
tile's frames are `F` and the stored frames are `T` after it. -/
theorem C1_swap_exchanges_frames (T F : List Frame) (sent : List Notification) :
    ((ChangeTileAnimation.mk ⟨T⟩ F sent).swap).mTile.frames = F ∧
    ((ChangeTileAnimation.mk ⟨T⟩ F sent).swap).mFrames = T := by
  constructor <;> rfl

/-- C2: two calls of `ChangeTileAnimation::swap` (a redo followed by an undo) restore
both the tile's frames and the command's stored frames. -/
theorem C2_swap_twice_identity (c : ChangeTileAnimation) :
    c.redo.undo.mTile.frames = c.mTile.frames ∧ c.redo.undo.mFrames = c.mFrames ∧
    c.swap.swap.mTile = c.mTile ∧ c.swap.swap.mFrames = c.mFrames := by
  refine ⟨rfl, rfl, rfl, rfl⟩

/-- C3: a `SetTilesetFileName` command constructed with file name `N` on a tileset whose
file name is `P`: after redo the tileset is named `N` and the command stores `P`; after
the following undo the tileset is named `P` again and the command stores `N` again. -/
theorem C3_setTilesetFileName_redo_undo (N P : QString) :
    ((SetTilesetFileName.new ⟨P⟩ N).redo).mTileset.fileName = N ∧
    ((SetTilesetFileName.new ⟨P⟩ N).redo).mFileName = P ∧
    ((SetTilesetFileName.new ⟨P⟩ N).redo.undo).mTileset.fileName = P ∧
    ((SetTilesetFileName.new ⟨P⟩ N).redo.undo).mFileName = N := by
  refine ⟨rfl, rfl, rfl, rfl⟩

/-! ### Recent files -/

/-- The loop that shortens the recent files list keeps its first `MaxRecentFiles` entries,
provided it may run often enough. -/
theorem removeLastLoop_eq_take (fuel : Nat) (files : List QString)
    (h : files.length ≤ fuel + MaxRecentFiles) :
    removeLastLoop fuel files = files.take MaxRecentFiles := by
  induction fuel generalizing files with
  | zero =>
    simp only [removeLastLoop]
    rw [List.take_of_length_le]
    simpa using h
  | succ n ih =>
    simp only [removeLastLoop]
    split
    · rename_i hlen
      rw [ih files.dropLast (by simp [List.length_dropLast]; omega)]
      rw [List.dropLast_eq_take, List.take_take]
      congr 1
      omega
    · rename_i hlen
      rw [List.take_of_length_le]
      omega

/-- The recent files list reads back what `storeRecentFiles` stored, whatever groups are
open. -/
theorem recentFiles_storeRecentFiles (s : MainWindow) (files : List QString) :
    (s.storeRecentFiles files).recentFiles = files := by
  unfold MainWindow.storeRecentFiles MainWindow.recentFiles MainWindow.stringListValue
    MainWindow.setStringListValue MainWindow.endGroup MainWindow.beginGroup
  by_cases h : s.mSettingsGroup ++ ["recentFiles", "fileNames"] = ["recentFiles", "fileNames"]
  · simp [h]
  · simp [h, lookupKey]

/-- Storing the recent files touches neither the document manager, nor the trace, nor the
other settings, nor the open groups. -/
theorem storeRecentFiles_frame (s : MainWindow) (files : List QString) :
    (s.storeRecentFiles files).mDocumentManager = s.mDocumentManager ∧
    (s.storeRecentFiles files).trace = s.trace ∧
    (s.storeRecentFiles files).mSettings = s.mSettings ∧
    (s.storeRecentFiles files).mPreferences = s.mPreferences ∧
    (s.storeRecentFiles files).mSettingsGroup = s.mSettingsGroup := by
  unfold MainWindow.storeRecentFiles MainWindow.setStringListValue MainWindow.endGroup
    MainWindow.beginGroup
  by_cases h : s.mSettingsGroup ++ ["recentFiles", "fileNames"] = ["recentFiles", "fileNames"]
  · simp [h]
  · simp [h]

/-- The list stored by `setRecentFile` for a file with a non-empty canonical path. -/
theorem setRecentFile_recentFiles (w : World) (s : MainWindow) (fileName : QString)
    (h : w.canonicalFilePath fileName ≠ "") :
    (s.setRecentFile w fileName).recentFiles =
      (w.canonicalFilePath fileName ::
        s.recentFiles.filter (fun f => decide (f ≠ w.canonicalFilePath fileName))).take 8 := by
  simp only [MainWindow.setRecentFile, if_neg h, removeAll]
  rw [recentFiles_storeRecentFiles, removeLastLoop_eq_take _ _ (by omega)]
  rfl

/-- C4: `setRecentFile` adds the file to the recent files list.  For a file whose canonical
path `p` is non-empty the list stored afterwards is the first 8 (`MaxRecentFiles`) entries
of `p` followed by the old list without every occurrence of `p`; so `p` is first, occurs
exactly once, the other entries are a sublist of the old list (same relative order), and
there are at most 8 entries.  When the canonical path is empty nothing changes. -/
theorem C4_setRecentFile (w : World) (s : MainWindow) (fileName : QString) :
    (w.canonicalFilePath fileName ≠ "" →
      (s.setRecentFile w fileName).recentFiles =
        (w.canonicalFilePath fileName ::
          s.recentFiles.filter (fun f => decide (f ≠ w.canonicalFilePath fileName))).take
            MaxRecentFiles ∧
      (s.setRecentFile w fileName).recentFiles.head? = some (w.canonicalFilePath fileName) ∧
      (s.setRecentFile w fileName).recentFiles.count (w.canonicalFilePath fileName) = 1 ∧
      (s.setRecentFile w fileName).recentFiles.tail.Sublist s.recentFiles ∧
      (s.setRecentFile w fileName).recentFiles.length ≤ 8) ∧
    (w.canonicalFilePath fileName = "" → s.setRecentFile w fileName = s) := by
  constructor
  · intro h
    have e := setRecentFile_recentFiles w s fileName h
    simp only [MaxRecentFiles]
    rw [e]
    refine ⟨rfl, by simp, ?_, ?_, ?_⟩
    · simp only [List.take_succ_cons, List.count_cons_self]
      have h0 : List.count (w.canonicalFilePath fileName)
          (List.take 7 (List.filter (fun f => decide (f ≠ w.canonicalFilePath fileName))
            s.recentFiles)) = 0 := by
        rw [List.count_eq_zero]
        intro hm
        have hm2 := List.mem_of_mem_take hm
        simp at hm2
      omega
    · simp only [List.take_succ_cons, List.tail_cons]
      exact (List.take_sublist _ _).trans (List.filter_sublist _)
    · simp [List.length_take]
  · intro h
    simp [MainWindow.setRecentFile, h]

/-- C4 at a concrete input: nine stored files, the reopened one among them twice. -/
theorem C4_setRecentFile_witness :
    (({ emptyWindow with recentFileNames :=
          ["1", "2", "3", "2", "4", "5", "6", "7", "8", "9"] } : MainWindow).setRecentFile
        exampleWorld "2").recentFiles = ["2", "1", "3", "4", "5", "6", "7", "8"] :=
  ((C4_setRecentFile exampleWorld
      { emptyWindow with recentFileNames := ["1", "2", "3", "2", "4", "5", "6", "7", "8", "9"] }
      "2").1 (by decide)).1.trans (by decide)

/-! ### Opening files -/

/-- The search behind `findDocument` either finds no document with the file name and
returns `-1`, or returns the index of a document that has the file name. -/
theorem findDocumentFrom_spec (fileName : QString) (ds : List MapDocument) (i : Nat) :
    (findDocumentFrom fileName ds i = -1 ∧ ∀ d ∈ ds, d.fileName ≠ fileName) ∨
    (∃ k : Nat, ∃ d, findDocumentFrom fileName ds i = ((i + k : Nat) : Int) ∧
      ds[k]? = some d ∧ d.fileName = fileName) := by
  induction ds generalizing i with
  | nil => left; simp [findDocumentFrom]
  | cons d ds ih =>
    by_cases h : d.fileName = fileName
    · right
      exact ⟨0, d, by simp [findDocumentFrom, h], by simp, h⟩
    · rcases ih (i + 1) with ⟨h1, h2⟩ | ⟨k, e, h1, h2, h3⟩
      · left
        refine ⟨by simp [findDocumentFrom, h, h1], ?_⟩
        intro x hx
        rcases List.mem_cons.1 hx with rfl | hx
        · exact h
        · exact h2 x hx
      · right
        refine ⟨k + 1, e, ?_, by simpa using h2, h3⟩
        simp only [findDocumentFrom, if_neg h, h1]
        congr 1
        omega

/-- The loading branch of `openFile` passes the file to `setRecentFile`: when `openFile`
returns true for a file that was not already open and whose canonical path `p` is
non-empty, `p` is the first entry of the list that `recentFiles()` reads below the open
groups. -/
theorem openFile_loaded_recentFiles (w : World) (s : MainWindow) (fileName : QString)
    (format : Option MapFormat)
    (hret : (s.openFile w fileName format).1 = true)
    (hnew : s.mDocumentManager.findDocument fileName = -1)
    (hp : w.canonicalFilePath fileName ≠ "") :
    (s.openFile w fileName format).2.recentFiles =
      (w.canonicalFilePath fileName ::
        s.recentFiles.filter (fun f => decide (f ≠ w.canonicalFilePath fileName))).take
          MaxRecentFiles := by
  unfold MainWindow.openFile at hret ⊢
  by_cases hn : fileName = ""
  · simp [hn] at hret
  · simp only [if_neg hn, hnew] at hret ⊢
    cases hl : w.load s.trace fileName format with
    | none => simp [hl] at hret
    | some d =>
      simp only [ne_eq, not_true_eq_false, if_false]
      rw [setRecentFile_recentFiles _ _ _ hp]
      rfl

/-- C5 (the code breaks the documented contract of `openFile`, "When opened successfully,
the file is added to the list of recent files"), evaluated at two inputs.  First: open
"a.tmx", clear the recent files, open "a.tmx" again; the second `openFile` finds the
document already open and returns true, and the recent files list stays empty.  Second:
`openFile` called while the group `recentFiles` of the settings is open, as
`openLastFiles` calls it; the file is loaded and true is returned, but `setRecentFile`
stores the name under `recentFiles/recentFiles/fileNames`, so once the group is closed
`recentFiles()` does not hold the file: after `openLastFiles` has loaded "a.tmx" and
"b.tmx" the recent files list is still empty.  The loading path outside any group does
add the file. -/
theorem C5_openFile_true_not_recent :
    (((((emptyWindow.openFile exampleWorld "a.tmx" none).2).clearRecentFiles).openFile
        exampleWorld "a.tmx" none).1 = true ∧
      exampleWorld.canonicalFilePath "a.tmx" ∉
        ((((emptyWindow.openFile exampleWorld "a.tmx" none).2).clearRecentFiles).openFile
          exampleWorld "a.tmx" none).2.recentFiles) ∧
    (((emptyWindow.beginGroup "recentFiles").openFile exampleWorld "a.tmx" none).1 = true ∧
      ((emptyWindow.beginGroup "recentFiles").openFile exampleWorld "a.tmx" none).2.trace =
        [Event.load "a.tmx"] ∧
      exampleWorld.canonicalFilePath "a.tmx" ∉
        (((emptyWindow.beginGroup "recentFiles").openFile exampleWorld "a.tmx"
          none).2.endGroup).recentFiles) ∧
    (({ twoDocumentWindow.writeSettings exampleWorld with
          mDocumentManager := emptyWindow.mDocumentManager, trace := [] } :
        MainWindow).openLastFiles exampleWorld).map
      (fun r => (r.mDocumentManager.documents.map MapDocument.fileName, r.trace,
        r.recentFiles)) =
      some (["a.tmx", "b.tmx"], [Event.load "a.tmx", Event.load "b.tmx"], []) ∧
    (emptyWindow.openFile exampleWorld "a.tmx" none).2.recentFiles = ["a.tmx"] := by
  decide

/-- C6: `openFile` returns false exactly when the file name is empty, or the file is not
already open and loading it fails; whenever it returns false the document manager (so the
list of documents) and the recent files list are unchanged. -/
theorem C6_openFile_false (w : World) (s : MainWindow) (fileName : QString)
    (format : Option MapFormat) :
    ((s.openFile w fileName format).1 = false ↔
      (fileName = "" ∨
        (s.mDocumentManager.findDocument fileName = -1 ∧
          w.load s.trace fileName format = none))) ∧
    ((s.openFile w fileName format).1 = false →
      (s.openFile w fileName format).2.mDocumentManager = s.mDocumentManager ∧
      (s.openFile w fileName format).2.recentFiles = s.recentFiles) := by
  unfold MainWindow.openFile
  by_cases hn : fileName = ""
  · simp [hn]
  · by_cases hf : s.mDocumentManager.findDocument fileName = -1
    · cases hl : w.load s.trace fileName format with
      | none =>
        simp [hn, hf, hl, MainWindow.record, MainWindow.recentFiles, MainWindow.stringListValue]
      | some d => simp [hn, hf, hl]
    · simp [hn, hf]

/-- C6 at concrete inputs: a file that cannot be read, and the empty file name. -/
theorem C6_openFile_false_witness :
    ((emptyWindow.openFile exampleWorld "missing.tmx" none).2.mDocumentManager =
        emptyWindow.mDocumentManager ∧
      (emptyWindow.openFile exampleWorld "missing.tmx" none).2.recentFiles =
        emptyWindow.recentFiles) ∧
    (emptyWindow.openFile exampleWorld "" none).1 = false :=
  ⟨(C6_openFile_false exampleWorld emptyWindow "missing.tmx" none).2 (by decide),
   (C6_openFile_false exampleWorld emptyWindow "" none).1.2 (Or.inl rfl)⟩

/-- C7: when the file passed to `openFile` is already open (`findDocument` returns an index
other than `-1` for its non-empty name), `openFile` returns true, the document at that index
becomes the current one and has the file name, nothing is loaded (no new event), and the
documents, their number and the recent files list are unchanged. -/
theorem C7_openFile_already_open (w : World) (s : MainWindow) (fileName : QString)
    (format : Option MapFormat)
    (hname : fileName ≠ "")
    (hopen : s.mDocumentManager.findDocument fileName ≠ -1) :
    (s.openFile w fileName format).1 = true ∧
    (s.openFile w fileName format).2.mDocumentManager.currentIndex =
      s.mDocumentManager.findDocument fileName ∧
    (∃ d, (s.openFile w fileName format).2.mMapDocument = some d ∧ d.fileName = fileName) ∧
    (s.openFile w fileName format).2.trace = s.trace ∧
    (s.openFile w fileName format).2.mDocumentManager.documents =
      s.mDocumentManager.documents ∧
    (s.openFile w fileName format).2.mDocumentManager.documentCount =
      s.mDocumentManager.documentCount ∧
    (s.openFile w fileName format).2.recentFiles = s.recentFiles := by
  rcases findDocumentFrom_spec fileName s.mDocumentManager.mDocuments 0 with
    ⟨h1, _⟩ | ⟨k, d, h1, h2, h3⟩
  · exact absurd h1 hopen
  · have hk : k < s.mDocumentManager.mDocuments.length := by
      rcases Nat.lt_or_ge k s.mDocumentManager.mDocuments.length with h | h
      · exact h
      · rw [List.getElem?_eq_none h] at h2
        cases h2
    have hidx : s.mDocumentManager.findDocument fileName = (k : Int) := by
      simp [DocumentManager.findDocument, h1]
    have hsw : s.mDocumentManager.switchToDocument (k : Int) =
        { s.mDocumentManager with currentIndex := (k : Int) } := by
      simp [DocumentManager.switchToDocument, DocumentManager.documentCount, hk]
    have hne : ¬ ((k : Int) = -1) := by omega
    simp only [MainWindow.openFile, if_neg hname, hidx, ne_eq, hne, not_false_eq_true, if_true,
      hsw, MainWindow.mMapDocument, DocumentManager.currentDocument, DocumentManager.documents,
      DocumentManager.documentCount, MainWindow.recentFiles, MainWindow.stringListValue]
    refine ⟨trivial, trivial, ⟨d, ?_, h3⟩, trivial, trivial, trivial, trivial⟩
    simp [h2]

/-- C7 at a concrete input: "b.tmx" is the second of two open documents while the first
one is shown. -/
theorem C7_openFile_already_open_witness :
    (({ emptyWindow with mDocumentManager :=
          { mDocuments := [exampleDocument "a.tmx" false, exampleDocument "b.tmx" true], currentIndex := 0 } }
        : MainWindow).openFile exampleWorld "b.tmx" none).2.mDocumentManager.currentIndex = 1 :=
  (C7_openFile_already_open exampleWorld
    { emptyWindow with mDocumentManager :=
        { mDocuments := [exampleDocument "a.tmx" false, exampleDocument "b.tmx" true], currentIndex := 0 } }
    "b.tmx" none (by decide) (by decide)).2.1.trans (by decide)

/-! ### Saving files -/

/-- C10: `saveFile(fileName)` returns false and leaves the whole state as it is (nothing is
saved, the recent files list is untouched) when there is no current document or the file
name is empty; when the document's save fails it returns false, the recent files list is
unchanged and the only events are the failed save and its error box; when the save
succeeds it returns true and the file is added to the recent files list by
`setRecentFile`, so its canonical path, when non-empty, is the first entry. -/
theorem C10_saveFile (w : World) (s : MainWindow) (fileName : QString) :
    ((s.mMapDocument = none ∨ fileName = "") → s.saveFile w fileName = (false, s)) ∧
    (∀ doc, s.mMapDocument = some doc → fileName ≠ "" →
      (w.save s.trace doc fileName).1 = false →
        (s.saveFile w fileName).1 = false ∧
        (s.saveFile w fileName).2.recentFiles = s.recentFiles ∧
        (s.saveFile w fileName).2.trace =
          s.trace ++ [Event.save fileName, Event.critical "Error Saving Map"]) ∧
    (∀ doc, s.mMapDocument = some doc → fileName ≠ "" →
      (w.save s.trace doc fileName).1 = true →
        (s.saveFile w fileName).1 = true ∧
        (s.saveFile w fileName).2.recentFiles = (s.setRecentFile w fileName).recentFiles ∧
        (w.canonicalFilePath fileName ≠ "" →
          w.canonicalFilePath fileName ∈ (s.saveFile w fileName).2.recentFiles ∧
          (s.saveFile w fileName).2.recentFiles.head? = some (w.canonicalFilePath fileName))) ∧
    ((s.saveFile w fileName).1 = true ↔
      ∃ doc, s.mMapDocument = some doc ∧ fileName ≠ "" ∧
        (w.save s.trace doc fileName).1 = true) := by
  refine ⟨?_, ?_, ?_, ?_⟩
  · rintro (h | h)
    · simp [MainWindow.saveFile, h]
    · cases hd : s.mMapDocument <;> simp [MainWindow.saveFile, hd, h]
  · intro doc hd hn hs
    simp [MainWindow.saveFile, hd, hn, hs, MainWindow.record, MainWindow.recentFiles,
      MainWindow.stringListValue]
  · intro doc hd hn hs
    have e : (s.saveFile w fileName).2.recentFiles =
        (s.setRecentFile w fileName).recentFiles := by
      by_cases hp : w.canonicalFilePath fileName = ""
      · simp [MainWindow.saveFile, hd, hn, hs, MainWindow.setRecentFile, hp, MainWindow.record,
          MainWindow.recentFiles, MainWindow.stringListValue]
      · simp only [MainWindow.saveFile, hd, if_neg hn, hs, Bool.not_true, Bool.false_eq_true,
          if_false]
        rw [setRecentFile_recentFiles _ _ _ hp, setRecentFile_recentFiles _ _ _ hp]
        rfl
    refine ⟨by simp [MainWindow.saveFile, hd, hn, hs], e, ?_⟩
    intro hp
    rw [e, setRecentFile_recentFiles _ _ _ hp]
    simp
  · cases hd : s.mMapDocument with
    | none => simp [MainWindow.saveFile, hd]
    | some doc =>
      by_cases hn : fileName = ""
      · simp [MainWindow.saveFile, hd, hn]
      · cases hs : (w.save s.trace doc fileName).1 <;>
          simp [MainWindow.saveFile, hd, hn, hs]

/-- C10 at concrete inputs: saving the open document "a.tmx" as "b.tmx" succeeds, saving it
as "readonly.tmx" fails. -/
theorem C10_saveFile_witness :
    (((emptyWindow.openFile exampleWorld "a.tmx" none).2.saveFile exampleWorld "b.tmx").1 = true ∧
      ((emptyWindow.openFile exampleWorld "a.tmx" none).2.saveFile exampleWorld
        "b.tmx").2.recentFiles = ["b.tmx", "a.tmx"]) ∧
    ((emptyWindow.openFile exampleWorld "a.tmx" none).2.saveFile exampleWorld
      "readonly.tmx").2.recentFiles = ["a.tmx"] ∧
    emptyWindow.saveFile exampleWorld "b.tmx" = (false, emptyWindow) :=
  ⟨⟨((C10_saveFile exampleWorld (emptyWindow.openFile exampleWorld "a.tmx" none).2
        "b.tmx").2.2.1 (exampleDocument "a.tmx" false) (by decide) (by decide) (by decide)).1,
    ((C10_saveFile exampleWorld (emptyWindow.openFile exampleWorld "a.tmx" none).2
        "b.tmx").2.2.1 (exampleDocument "a.tmx" false) (by decide) (by decide) (by decide)).2.1.trans
      (by decide)⟩,
   ((C10_saveFile exampleWorld (emptyWindow.openFile exampleWorld "a.tmx" none).2
        "readonly.tmx").2.1 (exampleDocument "a.tmx" false) (by decide) (by decide)
        (by decide)).2.1.trans (by decide),
   (C10_saveFile exampleWorld emptyWindow "b.tmx").1 (Or.inl (by decide))⟩

/-! ### Asking about unsaved changes -/

/-- Switching to the document at an index below the number of documents shows that tab. -/
theorem switchToDocument_of_lt (dm : DocumentManager) (i : Nat)
    (h : i < dm.mDocuments.length) :
    dm.switchToDocument (i : Int) = { mDocuments := dm.mDocuments, currentIndex := (i : Int) } := by
  simp [DocumentManager.switchToDocument, DocumentManager.documentCount, h]

/-- The shape of `confirmSave` on a modified document: the document becomes the current
one, the question is asked, and the answer decides. -/
theorem confirmSave_modified (w : World) (s : MainWindow) (i : Nat) (d : MapDocument)
    (hd : s.documentAt (some i) = some d) (hm : d.isModified = true) :
    s.confirmSave w (some i) =
      match w.unsavedChanges s.trace with
      | StandardButton.Save => (s.unsavedChangesShown i).saveCurrentFile w
      | StandardButton.Discard => (true, s.unsavedChangesShown i)
      | _ => (false, s.unsavedChangesShown i) := by
  have hlt : i < s.mDocumentManager.mDocuments.length := by
    rcases Nat.lt_or_ge i s.mDocumentManager.mDocuments.length with h | h
    · exact h
    · simp [MainWindow.documentAt, DocumentManager.documents, List.getElem?_eq_none h] at hd
  simp only [MainWindow.confirmSave, hd, hm, Bool.not_true, Bool.false_eq_true, if_false,
    switchToDocument_of_lt _ _ hlt, MainWindow.record, MainWindow.unsavedChangesShown]

/-- C8: `confirmSave` returns true for a null or unmodified document, and then the state is
unchanged (nothing is asked, no document is switched to).  For a modified document it
first makes that document the current one and asks; it then returns what `saveFile()`
returns on the answer Save, true on Discard, and false on Cancel or any other answer.  It
returns true exactly when there is nothing to save, the changes are discarded, or they are
saved successfully. -/
theorem C8_confirmSave (w : World) (s : MainWindow) (mapDocument : Option Nat) :
    ((s.documentAt mapDocument = none ∨
        ∃ d, s.documentAt mapDocument = some d ∧ d.isModified = false) →
      s.confirmSave w mapDocument = (true, s)) ∧
    (∀ i d, mapDocument = some i → s.documentAt (some i) = some d → d.isModified = true →
      (s.unsavedChangesShown i).mDocumentManager.currentIndex = (i : Int) ∧
      (s.unsavedChangesShown i).mMapDocument = some d ∧
      (w.unsavedChanges s.trace = StandardButton.Save →
        s.confirmSave w mapDocument = (s.unsavedChangesShown i).saveCurrentFile w) ∧
      (w.unsavedChanges s.trace = StandardButton.Discard →
        s.confirmSave w mapDocument = (true, s.unsavedChangesShown i)) ∧
      (w.unsavedChanges s.trace ≠ StandardButton.Save →
        w.unsavedChanges s.trace ≠ StandardButton.Discard →
        s.confirmSave w mapDocument = (false, s.unsavedChangesShown i)) ∧
      ((s.confirmSave w mapDocument).1 = true ↔
        (w.unsavedChanges s.trace = StandardButton.Discard ∨
          (w.unsavedChanges s.trace = StandardButton.Save ∧
            ((s.unsavedChangesShown i).saveCurrentFile w).1 = true)))) := by
  constructor
  · rintro (h | ⟨d, h, hm⟩)
    · cases mapDocument with
      | none => rfl
      | some i => simp [MainWindow.confirmSave, h]
    · cases mapDocument with
      | none => rfl
      | some i => simp [MainWindow.confirmSave, h, hm]
  · rintro i d rfl hd hm
    have e := confirmSave_modified w s i d hd hm
    have hcur : (s.unsavedChangesShown i).mMapDocument = some d := by
      simpa [MainWindow.unsavedChangesShown, MainWindow.mMapDocument,
        DocumentManager.currentDocument, MainWindow.documentAt, DocumentManager.documents]
        using hd
    refine ⟨rfl, hcur, ?_, ?_, ?_, ?_⟩
    · intro ha; rw [e, ha]
    · intro ha; rw [e, ha]
    · intro h1 h2
      rw [e]
      cases ha : w.unsavedChanges s.trace <;> simp_all
    · rw [e]
      cases ha : w.unsavedChanges s.trace <;> simp

/-- C8 at a concrete input: the second of two documents is modified, and the user discards
the changes. -/
theorem C8_confirmSave_witness :
    ({ emptyWindow with mDocumentManager :=
          { mDocuments := [exampleDocument "a.tmx" false, exampleDocument "b.tmx" true], currentIndex := 0 } }
        : MainWindow).confirmSave exampleWorld (some 1) =
      (true,
        { mDocumentManager :=
            { mDocuments := [exampleDocument "a.tmx" false, exampleDocument "b.tmx" true], currentIndex := 1 }
          recentFileNames := []
          trace := [Event.unsavedChanges 1] }) :=
  ((C8_confirmSave exampleWorld
    { emptyWindow with mDocumentManager :=
        { mDocuments := [exampleDocument "a.tmx" false, exampleDocument "b.tmx" true], currentIndex := 0 } }
    (some 1)).2 1 (exampleDocument "b.tmx" true) rfl (by decide) (by decide)).2.2.2.1 (by decide)

/-- Method `setRecentFile` does not touch the document manager. -/
theorem setRecentFile_mDocumentManager (w : World) (s : MainWindow) (fileName : QString) :
    (s.setRecentFile w fileName).mDocumentManager = s.mDocumentManager := by
  unfold MainWindow.setRecentFile
  by_cases h : w.canonicalFilePath fileName = ""
  · simp [h]
  · simp [h, (storeRecentFiles_frame _ _).1]

/-- Writing through the current-document pointer keeps the number of documents. -/
theorem setCurrentDocument_length (dm : DocumentManager) (d : MapDocument) :
    (dm.setCurrentDocument d).mDocuments.length = dm.mDocuments.length := by
  unfold DocumentManager.setCurrentDocument
  by_cases h : 0 ≤ dm.currentIndex <;> simp [h]

/-- Method `saveFile(fileName)` keeps the number of documents. -/
theorem saveFile_length (w : World) (s : MainWindow) (fileName : QString) :
    (s.saveFile w fileName).2.mDocumentManager.mDocuments.length =
      s.mDocumentManager.mDocuments.length := by
  unfold MainWindow.saveFile
  cases hd : s.mMapDocument with
  | none => rfl
  | some doc =>
    by_cases hn : fileName = ""
    · simp [hn]
    · cases hs : (w.save s.trace doc fileName).1 <;>
        simp [hn, hs, MainWindow.record, setRecentFile_mDocumentManager,
          setCurrentDocument_length]

/-- The end of `saveFileAs()` keeps the number of documents. -/
theorem saveWithFilter_length (w : World) (s : MainWindow) (fileName selectedFilter : QString) :
    (s.saveWithFilter w fileName selectedFilter).2.mDocumentManager.mDocuments.length =
      s.mDocumentManager.mDocuments.length := by
  unfold MainWindow.saveWithFilter
  cases hd : s.mMapDocument with
  | none => simp [saveFile_length]
  | some doc => simp [saveFile_length, setCurrentDocument_length]

/-- Method `saveFileAs()` keeps the number of documents. -/
theorem saveFileAs_length (w : World) (s : MainWindow) :
    (s.saveFileAs w).2.mDocumentManager.mDocuments.length =
      s.mDocumentManager.mDocuments.length := by
  unfold MainWindow.saveFileAs
  simp only
  generalize (w.getSaveFileName s.trace _ _) = chosen
  by_cases hn : chosen.1 = ""
  · simp [hn, MainWindow.record]
  · simp only [if_neg hn]
    split
    · split
      · rfl
      · rw [saveWithFilter_length]; rfl
    · rw [saveWithFilter_length]; rfl

/-- Method `saveFile()` keeps the number of documents. -/
theorem saveCurrentFile_length (w : World) (s : MainWindow) :
    (s.saveCurrentFile w).2.mDocumentManager.mDocuments.length =
      s.mDocumentManager.mDocuments.length := by
  unfold MainWindow.saveCurrentFile
  cases hd : s.mMapDocument with
  | none => rfl
  | some doc =>
    by_cases hn : doc.fileName = ""
    · simp [hn, saveFileAs_length]
    · simp [hn, saveFile_length]

/-- Method `confirmSave` keeps the number of documents. -/
theorem confirmSave_length (w : World) (s : MainWindow) (mapDocument : Option Nat) :
    (s.confirmSave w mapDocument).2.mDocumentManager.mDocuments.length =
      s.mDocumentManager.mDocuments.length := by
  cases mapDocument with
  | none => rfl
  | some i =>
    cases hd : s.documentAt (some i) with
    | none => simp [MainWindow.confirmSave, hd]
    | some d =>
      cases hm : d.isModified with
      | false => simp [MainWindow.confirmSave, hd, hm]
      | true =>
        rw [confirmSave_modified w s i d hd hm]
        cases w.unsavedChanges s.trace <;>
          simp [saveCurrentFile_length, MainWindow.unsavedChangesShown]

/-- The verdict on the document after the first one is the verdict on the first document
of the run that starts one index later, in the state the first `confirmSave` left. -/
theorem confirmVerdict_succ (w : World) (i : Nat) (s : MainWindow) (j : Nat) :
    confirmVerdict w i s (j + 1) = confirmVerdict w (i + 1) (s.confirmSave w (some i)).2 j := by
  simp only [confirmVerdict, confirmedInOrder]
  rw [show i + (j + 1) = i + 1 + j by omega]

/-- The loop of `confirmAllSave`, started at index `i` with `m` documents left and more than
`m` iterations allowed, leaves the loop; it returns true exactly when every remaining
verdict is true, and it stops right after the first false verdict. -/
theorem confirmAllSaveLoop_spec (w : World) (m : Nat) :
    ∀ (i : Nat) (s : MainWindow) (fuel : Nat),
      s.mDocumentManager.mDocuments.length = i + m → m < fuel →
      ∃ r, confirmAllSaveLoop w fuel i s = some r ∧
        (r.1 = true ↔ ∀ j, j < m → confirmVerdict w i s j = true) ∧
        (r.1 = true → r.2 = confirmedInOrder w m i s) ∧
        (∀ k, k < m → (∀ j, j < k → confirmVerdict w i s j = true) →
          confirmVerdict w i s k = false → r = (false, confirmedInOrder w (k + 1) i s)) := by
  induction m with
  | zero =>
    intro i s fuel hlen hfuel
    obtain ⟨f, rfl⟩ : ∃ f, fuel = f + 1 := ⟨fuel - 1, by omega⟩
    refine ⟨(true, s), ?_, by simp, fun _ => rfl, fun k hk => absurd hk (Nat.not_lt_zero k)⟩
    simp [confirmAllSaveLoop, DocumentManager.documentCount, hlen]
  | succ m ih =>
    intro i s fuel hlen hfuel
    obtain ⟨f, rfl⟩ : ∃ f, fuel = f + 1 := ⟨fuel - 1, by omega⟩
    have hi : ((i : Int) < s.mDocumentManager.documentCount) := by
      simp only [DocumentManager.documentCount, hlen]
      omega
    have h0 : confirmVerdict w i s 0 = (s.confirmSave w (some i)).1 := rfl
    cases hv : (s.confirmSave w (some i)).1 with
    | false =>
      refine ⟨(false, (s.confirmSave w (some i)).2), ?_, ?_, by simp, ?_⟩
      · simp [confirmAllSaveLoop, hi, hv]
      · constructor
        · intro h; cases h
        · intro h
          have := h 0 (Nat.succ_pos m)
          rw [h0, hv] at this
          cases this
      · intro k _ hall _
        cases k with
        | zero => rfl
        | succ k =>
          have := hall 0 (Nat.succ_pos k)
          rw [h0, hv] at this
          cases this
    | true =>
      have hlen2 : (s.confirmSave w (some i)).2.mDocumentManager.mDocuments.length =
          (i + 1) + m := by
        rw [confirmSave_length, hlen]; omega
      obtain ⟨r, hr, hiff, hstate, hstop⟩ :=
        ih (i + 1) (s.confirmSave w (some i)).2 f hlen2 (by omega)
      refine ⟨r, ?_, ?_, ?_, ?_⟩
      · simp [confirmAllSaveLoop, hi, hv, hr]
      · rw [hiff]
        constructor
        · intro h j hj
          cases j with
          | zero => rw [h0, hv]
          | succ j => rw [confirmVerdict_succ]; exact h j (by omega)
        · intro h j hj
          rw [← confirmVerdict_succ]
          exact h (j + 1) (by omega)
      · intro h
        rw [hstate h]
        rfl
      · intro k hk hall hfalse
        cases k with
        | zero => rw [h0, hv] at hfalse; cases hfalse
        | succ k =>
          rw [confirmVerdict_succ] at hfalse
          have := hstop k (by omega)
            (fun j hj => by rw [← confirmVerdict_succ]; exact hall (j + 1) (by omega)) hfalse
          rw [this]
          rfl

/-- C9: `confirmAllSave` leaves its loop, and returns true if and only if `confirmSave`
returns true for every open document, the documents being asked in document order (the
document at index `j` is asked in the state the documents before it left).  When all
verdicts are true every document has been asked; when the document at index `k` is the
first one with verdict false, `confirmAllSave` returns false in the state that
`confirmSave` on that document left, so no further document is asked. -/
theorem C9_confirmAllSave (w : World) (s : MainWindow) :
    ∃ r, s.confirmAllSave w = some r ∧
      (r.1 = true ↔
        ∀ j, j < s.mDocumentManager.mDocuments.length →
          ((confirmedInOrder w j 0 s).confirmSave w (some j)).1 = true) ∧
      (r.1 = true → r.2 = confirmedInOrder w s.mDocumentManager.mDocuments.length 0 s) ∧
      (∀ k, k < s.mDocumentManager.mDocuments.length →
        (∀ j, j < k → ((confirmedInOrder w j 0 s).confirmSave w (some j)).1 = true) →
        ((confirmedInOrder w k 0 s).confirmSave w (some k)).1 = false →
        r = (false, confirmedInOrder w (k + 1) 0 s)) := by
  obtain ⟨r, hr, hiff, hstate, hstop⟩ :=
    confirmAllSaveLoop_spec w s.mDocumentManager.mDocuments.length 0 s
      (s.mDocumentManager.mDocuments.length + 1) (by omega) (by omega)
  simp only [confirmVerdict, Nat.zero_add] at hiff hstop
  exact ⟨r, hr, hiff, hstate, hstop⟩

/-- C9 at a concrete input: three modified documents; the user discards the first and
cancels at the second, so the third is never asked about. -/
theorem C9_confirmAllSave_witness :
    ({ emptyWindow with mDocumentManager :=
          { mDocuments := [exampleDocument "a.tmx" true, exampleDocument "b.tmx" true, exampleDocument "c.tmx" true]
            currentIndex := 2 } } : MainWindow).confirmAllSave exampleWorld =
      some (false,
        { mDocumentManager :=
            { mDocuments := [exampleDocument "a.tmx" true, exampleDocument "b.tmx" true, exampleDocument "c.tmx" true]
              currentIndex := 1 }
          recentFileNames := []
          trace := [Event.unsavedChanges 0, Event.unsavedChanges 1] }) := by
  obtain ⟨r, hr, _, _, hstop⟩ := C9_confirmAllSave exampleWorld
    { emptyWindow with mDocumentManager :=
        { mDocuments := [exampleDocument "a.tmx" true, exampleDocument "b.tmx" true, exampleDocument "c.tmx" true]
          currentIndex := 2 } }
  rw [hr, hstop 1 (by decide) (by decide) (by decide)]
  decide

/-! ### Selecting the tiles equal to the one under the mouse -/

/-- The region that `TileLayer.region` collects holds exactly the points of the grid whose
cell satisfies the condition. -/
theorem mem_region (l : TileLayer) (condition : Cell → Bool) (q : QPoint) :
    q ∈ l.region condition ↔ (l.contains q = true ∧ condition (l.cellAt q) = true) := by
  obtain ⟨qx, qy⟩ := q
  simp only [TileLayer.region, Finset.mem_image, Finset.mem_filter, Finset.mem_product,
    Finset.mem_range, TileLayer.contains, TileLayer.cellAt, Bool.and_eq_true,
    decide_eq_true_eq, Prod.mk.injEq]
  constructor
  · rintro ⟨⟨x, y⟩, ⟨⟨hx, hy⟩, hc⟩, rfl, rfl⟩
    refine ⟨⟨⟨⟨by omega, by omega⟩, by omega⟩, by omega⟩, ?_⟩
    simpa using hc
  · rintro ⟨⟨⟨⟨hx0, hy0⟩, hx⟩, hy⟩, hc⟩
    refine ⟨(qx.toNat, qy.toNat), ⟨⟨by omega, by omega⟩, hc⟩, ?_, ?_⟩
    · exact Int.toNat_of_nonneg hx0
    · exact Int.toNat_of_nonneg hy0

/-- C11: when a tile layer is selected and contains the tile position `p`,
`tilePositionChanged` sets the selected region to exactly the positions of that layer whose
cell equals the cell at `p`, so `p` itself is in the region; when the layer does not
contain `p` the selected region becomes empty. -/
theorem C11_tilePositionChanged_region (t : SelectSameTileTool) (l : TileLayer) (p : QPoint)
    (hl : t.currentTileLayer = some l) :
    (l.contains p = true →
      (∀ q, q ∈ (t.tilePositionChanged p).mSelectedRegion ↔
        (l.contains q = true ∧ l.cellAt q = l.cellAt p)) ∧
      p ∈ (t.tilePositionChanged p).mSelectedRegion) ∧
    (l.contains p = false → (t.tilePositionChanged p).mSelectedRegion = ∅) := by
  constructor
  · intro hc
    have key : ∀ q, q ∈ (t.tilePositionChanged p).mSelectedRegion ↔
        (l.contains q = true ∧ l.cellAt q = l.cellAt p) := by
      intro q
      simp only [SelectSameTileTool.tilePositionChanged, hl, hc, if_true]
      rw [mem_region]
      simp
    exact ⟨key, (key p).2 ⟨hc, rfl⟩⟩
  · intro hc
    simp [SelectSameTileTool.tilePositionChanged, hl, hc]

/-- C11 at a concrete input: in `exampleLayer` the tiles equal to the one at column 0 of
row 1 are those of the first and the last column. -/
theorem C11_tilePositionChanged_region_witness :
    ((0, 1) : QPoint) ∈
      (({ staleTool with currentTileLayer := some exampleLayer }).tilePositionChanged
        (0, 1)).mSelectedRegion ∧
    (({ staleTool with currentTileLayer := some exampleLayer }).tilePositionChanged
        (5, 1)).mSelectedRegion = ∅ :=
  ⟨((C11_tilePositionChanged_region { staleTool with currentTileLayer := some exampleLayer }
      exampleLayer (0, 1) rfl).1 (by decide)).2,
   (C11_tilePositionChanged_region { staleTool with currentTileLayer := some exampleLayer }
      exampleLayer (5, 1) rfl).2 (by decide)⟩

/-- C12, as stated, fails: the tool computes a region on `exampleLayer`, then a layer that is
not a tile layer becomes the current one; the next `tilePositionChanged` returns at once
and the old region stays, non-empty, although no tile layer is selected. -/
theorem C12_counterexample :
    ({ ({ staleTool with currentTileLayer := some exampleLayer }).tilePositionChanged (0, 0)
        with currentTileLayer := none } : SelectSameTileTool).currentTileLayer = none ∧
    (({ ({ staleTool with currentTileLayer := some exampleLayer }).tilePositionChanged (0, 0)
        with currentTileLayer := none } : SelectSameTileTool).tilePositionChanged
          (0, 0)).mSelectedRegion.Nonempty := by
  refine ⟨rfl, ⟨(0, 0), ?_⟩⟩
  decide

/-- C12 (amended): after every call of `tilePositionChanged` made while a tile layer is
selected, for every prior tool state, the selected region is non-empty only if that layer
contains the tile position. -/
theorem C12_region_nonempty_only_if_contained (t : SelectSameTileTool) (l : TileLayer)
    (p : QPoint) (hl : t.currentTileLayer = some l)
    (hne : (t.tilePositionChanged p).mSelectedRegion.Nonempty) :
    (t.tilePositionChanged p).currentTileLayer = some l ∧ l.contains p = true := by
  refine ⟨by simp [SelectSameTileTool.tilePositionChanged, hl], ?_⟩
  by_contra hc
  have hc2 : l.contains p = false := by simpa using hc
  simp [SelectSameTileTool.tilePositionChanged, hl, hc2] at hne

/-- C12 (amended) at a concrete input: the position (0, 0) of `exampleLayer`. -/
theorem C12_region_nonempty_only_if_contained_witness :
    exampleLayer.contains (0, 0) = true :=
  (C12_region_nonempty_only_if_contained { staleTool with currentTileLayer := some exampleLayer }
    exampleLayer (0, 0) rfl ⟨(0, 0), by decide⟩).2

/-- C13: with `S` the document's selected area and `R` the tool's region, a left click
selects `S ∪ R` with exactly Shift, `S \ R` with exactly Ctrl, `S ∩ R` with exactly
Ctrl+Shift and `R` with any other modifiers; a right click selects nothing; any other
button changes nothing.  A `ChangeSelectedArea` command is pushed on the undo stack
exactly when the resulting selection differs from `S`. -/
theorem C13_mousePressed (t : SelectSameTileTool) (button : MouseButton)
    (modifiers : KeyboardModifiers) :
    (button = MouseButton.LeftButton → modifiers = ShiftModifier →
      (t.mousePressed button modifiers).selectedArea = t.selectedArea ∪ t.mSelectedRegion) ∧
    (button = MouseButton.LeftButton → modifiers = ControlModifier →
      (t.mousePressed button modifiers).selectedArea = t.selectedArea \ t.mSelectedRegion) ∧
    (button = MouseButton.LeftButton → modifiers = (ControlModifier ||| ShiftModifier) →
      (t.mousePressed button modifiers).selectedArea = t.selectedArea ∩ t.mSelectedRegion) ∧
    (button = MouseButton.LeftButton → modifiers ≠ ShiftModifier →
      modifiers ≠ ControlModifier → modifiers ≠ (ControlModifier ||| ShiftModifier) →
      (t.mousePressed button modifiers).selectedArea = t.mSelectedRegion) ∧
    (button = MouseButton.RightButton → (t.mousePressed button modifiers).selectedArea = ∅) ∧
    (button ≠ MouseButton.LeftButton → button ≠ MouseButton.RightButton →
      t.mousePressed button modifiers = t) ∧
    ((t.mousePressed button modifiers).selectedArea ≠ t.selectedArea →
      (t.mousePressed button modifiers).undoStack =
        t.undoStack ++ [{ mSelection := t.selectedArea }]) ∧
    ((t.mousePressed button modifiers).selectedArea = t.selectedArea →
      (t.mousePressed button modifiers).undoStack = t.undoStack) := by
  have hsc : ControlModifier ≠ ShiftModifier := by decide
  have hcs : (ControlModifier ||| ShiftModifier) ≠ ShiftModifier := by decide
  have hcc : (ControlModifier ||| ShiftModifier) ≠ ControlModifier := by decide
  have hpush : ∀ sel : QRegion,
      (if sel ≠ t.selectedArea then t.pushChangeSelectedArea sel else t).selectedArea = sel := by
    intro sel
    by_cases h : sel = t.selectedArea
    · simp [h]
    · simp [h, SelectSameTileTool.pushChangeSelectedArea]
  have hstack : ∀ sel : QRegion,
      ((if sel ≠ t.selectedArea then t.pushChangeSelectedArea sel else t).selectedArea ≠
          t.selectedArea →
        (if sel ≠ t.selectedArea then t.pushChangeSelectedArea sel else t).undoStack =
          t.undoStack ++ [{ mSelection := t.selectedArea }]) ∧
      ((if sel ≠ t.selectedArea then t.pushChangeSelectedArea sel else t).selectedArea =
          t.selectedArea →
        (if sel ≠ t.selectedArea then t.pushChangeSelectedArea sel else t).undoStack =
          t.undoStack) := by
    intro sel
    by_cases h : sel = t.selectedArea
    · simp [h]
    · simp [h, SelectSameTileTool.pushChangeSelectedArea]
  refine ⟨?_, ?_, ?_, ?_, ?_, ?_, ?_, ?_⟩
  · rintro rfl rfl
    exact hpush (t.selectedArea ∪ t.mSelectedRegion)
  · rintro rfl rfl
    exact hpush (t.selectedArea \ t.mSelectedRegion)
  · rintro rfl rfl
    exact hpush (t.selectedArea ∩ t.mSelectedRegion)
  · rintro rfl h1 h2 h3
    have e : t.mousePressed MouseButton.LeftButton modifiers =
        (if t.mSelectedRegion ≠ t.selectedArea then t.pushChangeSelectedArea t.mSelectedRegion
          else t) := by
      unfold SelectSameTileTool.mousePressed
      simp only [if_neg h1, if_neg h2, if_neg h3]
      rfl
    rw [e]
    exact hpush _
  · rintro rfl
    exact hpush ∅
  · intro h1 h2
    simp [SelectSameTileTool.mousePressed, h1, h2]
  · unfold SelectSameTileTool.mousePressed
    split
    · intro h; exact absurd rfl h
    · exact (hstack _).1
  · unfold SelectSameTileTool.mousePressed
    split
    · intro _; rfl
    · exact (hstack _).2

/-- C13 at a concrete input: a Shift click adds the tool's region to an empty selection. -/
theorem C13_mousePressed_witness :
    (staleTool.mousePressed MouseButton.LeftButton ShiftModifier).selectedArea = {(0, 0)} ∧
    (staleTool.mousePressed MouseButton.LeftButton ShiftModifier).undoStack =
      [{ mSelection := ∅ }] ∧
    (staleTool.mousePressed MouseButton.RightButton NoModifier).undoStack = [] :=
  ⟨((C13_mousePressed staleTool MouseButton.LeftButton ShiftModifier).1 rfl rfl).trans
      (by decide),
   ((C13_mousePressed staleTool MouseButton.LeftButton ShiftModifier).2.2.2.2.2.2.1
      (by decide)).trans (by decide),
   ((C13_mousePressed staleTool MouseButton.RightButton NoModifier).2.2.2.2.2.2.2
      (by decide)).trans (by decide)⟩

/-! ### Adding external tilesets -/

/-- Writing through the current-document pointer replaces the current document. -/
theorem currentDocument_setCurrentDocument (dm : DocumentManager) (d e : MapDocument)
    (h : dm.currentDocument = some d) : (dm.setCurrentDocument e).currentDocument = some e := by
  unfold DocumentManager.currentDocument at h ⊢
  unfold DocumentManager.setCurrentDocument
  by_cases h0 : 0 ≤ dm.currentIndex
  · simp only [if_pos h0] at h ⊢
    have hlt : dm.currentIndex.toNat < dm.mDocuments.length := by
      rcases Nat.lt_or_ge dm.currentIndex.toNat dm.mDocuments.length with hl | hl
      · exact hl
      · rw [List.getElem?_eq_none hl] at h
        cases h
    simp [hlt]
  · simp [h0] at h

/-- Pushing `AddTileset` commands while a macro is being composed appends the tilesets to
the map and the commands to the macro, and leaves the entries of the stack alone. -/
theorem foldl_push_addTileset (tilesets : List Tileset) :
    ∀ (d : MapDocument) (m : UndoMacro), d.undoStack.openMacro = some m →
      (tilesets.foldl (fun d tileset => d.push (UndoCommand.addTileset tileset)) d).tilesets =
          d.tilesets ++ tilesets ∧
      (tilesets.foldl (fun d tileset => d.push (UndoCommand.addTileset tileset))
          d).undoStack.openMacro =
          some { m with children := m.children ++ tilesets.map UndoCommand.addTileset } ∧
      (tilesets.foldl (fun d tileset => d.push (UndoCommand.addTileset tileset))
          d).undoStack.entries = d.undoStack.entries := by
  induction tilesets with
  | nil => intro d m h; simp [h]
  | cons t ts ih =>
    intro d m h
    have hp : (d.push (UndoCommand.addTileset t)).undoStack.openMacro =
        some { m with children := m.children ++ [UndoCommand.addTileset t] } := by
      simp [MapDocument.push, UndoCommand.redo, h]
    have ht : (d.push (UndoCommand.addTileset t)).tilesets = d.tilesets ++ [t] := by
      simp [MapDocument.push, UndoCommand.redo, h]
    have he : (d.push (UndoCommand.addTileset t)).undoStack.entries = d.undoStack.entries := by
      simp [MapDocument.push, UndoCommand.redo, h]
    obtain ⟨h1, h2, h3⟩ := ih (d.push (UndoCommand.addTileset t)) _ hp
    simp only [List.foldl_cons]
    refine ⟨?_, ?_, ?_⟩
    · rw [h1, ht]; simp
    · rw [h2]; simp
    · rw [h3, he]

/-- The current document after `addExternalTileset`, given what its loop returned. -/
theorem addExternalTileset_eq (w : World) (s : MainWindow) (doc : MapDocument)
    (hd : s.mMapDocument = some doc) (hne : s.chosenTilesetFiles w ≠ []) :
    ∃ s2 : MainWindow, s2.mDocumentManager = s.mDocumentManager ∧
      s2.trace = s.trace ++ [Event.getOpenFileNames (s.chosenTilesetFiles w)] ∧
      s.addExternalTileset w =
        match readTilesetsLoop w (s.chosenTilesetFiles w).length (s.chosenTilesetFiles w) [] s2
          with
        | (none, s3) => s3
        | (some tilesets, s3) =>
          { s3 with
            mDocumentManager :=
              s3.mDocumentManager.setCurrentDocument
                ((tilesets.foldl (fun d tileset => d.push (UndoCommand.addTileset tileset))
                  (doc.beginMacro "Add %n Tileset(s)" tilesets.length)).endMacro) } := by
  unfold MainWindow.chosenTilesetFiles at hne ⊢
  refine ⟨{ s.record (Event.getOpenFileNames
      (w.getOpenFileNames s.trace s.mPreferences.lastExternalTilesetPath
        (s.mSettings.lastUsedTilesetFilter.getD w.tsxNameFilter)).1) with
      mPreferences :=
        { s.mPreferences with
          lastExternalTilesetPath :=
            w.path ((w.getOpenFileNames s.trace s.mPreferences.lastExternalTilesetPath
              (s.mSettings.lastUsedTilesetFilter.getD w.tsxNameFilter)).1.getLastD "") }
      mSettings :=
        { s.mSettings with
          lastUsedTilesetFilter :=
            some (w.getOpenFileNames s.trace s.mPreferences.lastExternalTilesetPath
              (s.mSettings.lastUsedTilesetFilter.getD w.tsxNameFilter)).2 } }, rfl, rfl, ?_⟩
  unfold MainWindow.addExternalTileset
  simp only [hd, if_neg hne]
  rfl

/-- The loop of `addExternalTileset` over several files, while no failure is answered with
Abort: it changes nothing but the trace, which grows by `importEvents`, and collects
exactly the tilesets read successfully, in order. -/
theorem readTilesetsLoop_ignored (w : World) (size : Nat) (hsize : size ≠ 1) :
    ∀ (files : List QString) (acc : List Tileset) (s : MainWindow),
      Event.warning "Error Reading Tileset" StandardButton.Abort ∉
        importEvents w files s.trace →
      readTilesetsLoop w size files acc s =
        (some (acc ++ (importEvents w files s.trace).filterMap Event.tilesetRead),
          { s with trace := s.trace ++ importEvents w files s.trace }) := by
  intro files
  induction files with
  | nil =>
    intro acc s _
    simp [readTilesetsLoop, importEvents]
  | cons f rest ih =>
    intro acc s hno
    cases hr : w.readTileset s.trace f with
    | some t =>
      simp only [importEvents, hr, List.mem_cons, not_or] at hno ⊢
      simp only [readTilesetsLoop, hr]
      rw [ih (acc ++ [t]) (s.record (Event.readTileset f (some t))) hno.2]
      simp [MainWindow.record, Event.tilesetRead]
    | none =>
      simp only [importEvents, hr, List.mem_cons, not_or] at hno ⊢
      have hab : w.tilesetErrorAnswer (s.trace ++ [Event.readTileset f none]) ≠
          StandardButton.Abort := by
        intro e
        apply hno.2.1
        rw [e]
      have hab2 : w.tilesetErrorAnswer (s.record (Event.readTileset f none)).trace ≠
          StandardButton.Abort := hab
      simp only [readTilesetsLoop, hr, if_neg hsize, if_neg hab2]
      rw [ih acc _ hno.2.2]
      simp [MainWindow.record, Event.tilesetRead]

/-- The loop of `addExternalTileset` over a list of files continues, after the first part
of the list went through, with the rest. -/
theorem readTilesetsLoop_append (w : World) (size : Nat) (rest : List QString) :
    ∀ (pre : List QString) (acc acc2 : List Tileset) (s s2 : MainWindow),
      readTilesetsLoop w size pre acc s = (some acc2, s2) →
      readTilesetsLoop w size (pre ++ rest) acc s = readTilesetsLoop w size rest acc2 s2 := by
  intro pre
  induction pre with
  | nil =>
    intro acc acc2 s s2 h
    simp only [readTilesetsLoop, Prod.mk.injEq, Option.some.injEq] at h
    rw [h.1, h.2]
    rfl
  | cons f pre ih =>
    intro acc acc2 s s2 h
    cases hr : w.readTileset s.trace f with
    | some t =>
      simp only [readTilesetsLoop, hr, List.cons_append] at h ⊢
      exact ih _ _ _ _ h
    | none =>
      by_cases hsize : size = 1
      · simp [readTilesetsLoop, hr, hsize] at h
      · by_cases hab : w.tilesetErrorAnswer (s.record (Event.readTileset f none)).trace =
            StandardButton.Abort
        · simp [readTilesetsLoop, hr, hsize, hab] at h
        · simp only [readTilesetsLoop, hr, if_neg hsize, if_neg hab, List.cons_append] at h ⊢
          exact ih _ _ _ _ h

/-- In `importEvents` every file is passed to `readTileset`, in order. -/
theorem importEvents_files (w : World) :
    ∀ (files : List QString) (trace : List Event),
      (importEvents w files trace).filterMap Event.tilesetFile = files := by
  intro files
  induction files with
  | nil => intro _; rfl
  | cons f rest ih =>
    intro trace
    cases hr : w.readTileset trace f with
    | some t => simp [importEvents, hr, Event.tilesetFile, ih]
    | none => simp [importEvents, hr, Event.tilesetFile, ih]

/-- When every failure is answered with Ignore, `importEvents` holds no Abort answer. -/
theorem importEvents_of_failuresIgnored (w : World) :
    ∀ (files : List QString) (trace : List Event), failuresIgnored w files trace = true →
      Event.warning "Error Reading Tileset" StandardButton.Abort ∉
        importEvents w files trace := by
  intro files
  induction files with
  | nil => intro _ _; simp [importEvents]
  | cons f rest ih =>
    intro trace h
    cases hr : w.readTileset trace f with
    | some t =>
      simp only [failuresIgnored, hr] at h
      simp only [importEvents, hr, List.mem_cons, not_or]
      exact ⟨by simp, ih _ h⟩
    | none =>
      simp only [failuresIgnored, hr, Bool.and_eq_true, decide_eq_true_eq] at h
      simp only [importEvents, hr, List.mem_cons, not_or]
      refine ⟨by simp, ?_, ih _ h.2⟩
      intro e
      simp only [Event.warning.injEq, true_and] at e
      exact h.1 e.symm

/-- C14: with a current document `doc` and the file names chosen in the dialog,
`addExternalTileset` does the following.  Exactly one file chosen and `readTileset` fails
on it: the error box is shown and the document (so its tilesets) is unchanged.  Several
files chosen, `pre` of them went through with every failure answered Ignore, `readTileset`
fails on the next file `f` and the user answers Abort: the document is unchanged,
whatever was read in `pre`, and the files after `f` are not read.  Several files chosen
and every failure answered Ignore: every chosen file was passed to `readTileset` in the
chosen order, the Abort/Ignore question was asked after each failure, the tilesets of the
document are the old ones followed by exactly the tilesets read successfully, in that
order, and the undo stack got one new entry, a macro made of one `AddTileset` per tileset
read.  Exactly one file chosen and read successfully: that tileset is added, in one
macro. -/
theorem C14_addExternalTileset (w : World) (s : MainWindow) (doc : MapDocument)
    (hd : s.mMapDocument = some doc) :
    (∀ f, s.chosenTilesetFiles w = [f] →
      w.readTileset (s.afterTilesetDialog w) f = none →
      (s.addExternalTileset w).mMapDocument = some doc ∧
      (s.addExternalTileset w).trace = s.afterTilesetDialog w ++
        [Event.readTileset f none, Event.critical "Error Reading Tileset"]) ∧
    (∀ pre f post, s.chosenTilesetFiles w = pre ++ f :: post →
      2 ≤ (s.chosenTilesetFiles w).length →
      failuresIgnored w pre (s.afterTilesetDialog w) = true →
      w.readTileset (s.afterTilesetDialog w ++ importEvents w pre (s.afterTilesetDialog w)) f =
        none →
      w.tilesetErrorAnswer (s.afterTilesetDialog w ++
        importEvents w pre (s.afterTilesetDialog w) ++ [Event.readTileset f none]) =
          StandardButton.Abort →
      (s.addExternalTileset w).mMapDocument = some doc ∧
      (s.addExternalTileset w).trace = s.afterTilesetDialog w ++
        importEvents w pre (s.afterTilesetDialog w) ++
        [Event.readTileset f none,
          Event.warning "Error Reading Tileset" StandardButton.Abort]) ∧
    (2 ≤ (s.chosenTilesetFiles w).length →
      failuresIgnored w (s.chosenTilesetFiles w) (s.afterTilesetDialog w) = true →
      (s.addExternalTileset w).trace = s.afterTilesetDialog w ++
        importEvents w (s.chosenTilesetFiles w) (s.afterTilesetDialog w) ∧
      (importEvents w (s.chosenTilesetFiles w) (s.afterTilesetDialog w)).filterMap
        Event.tilesetFile = s.chosenTilesetFiles w ∧
      ∃ e, (s.addExternalTileset w).mMapDocument = some e ∧
        e.tilesets = doc.tilesets ++
          (importEvents w (s.chosenTilesetFiles w) (s.afterTilesetDialog w)).filterMap
            Event.tilesetRead ∧
        e.undoStack.entries = doc.undoStack.entries ++
          [UndoEntry.macroEntry
            { text := "Add %n Tileset(s)"
              count := ((importEvents w (s.chosenTilesetFiles w)
                (s.afterTilesetDialog w)).filterMap Event.tilesetRead).length
              children := ((importEvents w (s.chosenTilesetFiles w)
                (s.afterTilesetDialog w)).filterMap Event.tilesetRead).map
                  UndoCommand.addTileset }]) ∧
    (∀ f t, s.chosenTilesetFiles w = [f] →
      w.readTileset (s.afterTilesetDialog w) f = some t →
      (s.addExternalTileset w).trace = s.afterTilesetDialog w ++
        [Event.readTileset f (some t)] ∧
      ∃ e, (s.addExternalTileset w).mMapDocument = some e ∧
        e.tilesets = doc.tilesets ++ [t] ∧
        e.undoStack.entries = doc.undoStack.entries ++
          [UndoEntry.macroEntry
            { text := "Add %n Tileset(s)"
              count := 1
              children := [UndoCommand.addTileset t] }]) := by
  have hmacro : ∀ (ts : List Tileset) (s3 : MainWindow),
      s3.mDocumentManager = s.mDocumentManager →
      ∃ e, ({ s3 with
          mDocumentManager :=
            s3.mDocumentManager.setCurrentDocument
              ((ts.foldl (fun d tileset => d.push (UndoCommand.addTileset tileset))
                (doc.beginMacro "Add %n Tileset(s)" ts.length)).endMacro) } :
          MainWindow).mMapDocument = some e ∧
        e.tilesets = doc.tilesets ++ ts ∧
        e.undoStack.entries = doc.undoStack.entries ++
          [UndoEntry.macroEntry
            { text := "Add %n Tileset(s)"
              count := ts.length
              children := ts.map UndoCommand.addTileset }] := by
    intro ts s3 h3
    obtain ⟨f1, f2, f3⟩ := foldl_push_addTileset ts
      (doc.beginMacro "Add %n Tileset(s)" ts.length)
      { text := "Add %n Tileset(s)", count := ts.length, children := [] } rfl
    refine ⟨(ts.foldl (fun d tileset => d.push (UndoCommand.addTileset tileset))
      (doc.beginMacro "Add %n Tileset(s)" ts.length)).endMacro, ?_, ?_, ?_⟩
    · unfold MainWindow.mMapDocument at hd ⊢
      simp only [h3]
      exact currentDocument_setCurrentDocument _ doc _ hd
    · simp only [MapDocument.endMacro, f2]
      rw [f1]
      rfl
    · simp only [MapDocument.endMacro, f2]
      rw [f3]
      simp [MapDocument.beginMacro]
  have hkeep : ∀ s3 : MainWindow, s3.mDocumentManager = s.mDocumentManager →
      s3.mMapDocument = some doc := by
    intro s3 h3
    unfold MainWindow.mMapDocument at hd ⊢
    rw [h3]
    exact hd
  refine ⟨?_, ?_, ?_, ?_⟩
  · intro f hf hr
    have hne : s.chosenTilesetFiles w ≠ [] := by rw [hf]; simp
    obtain ⟨s2, hdm, htr, heq⟩ := addExternalTileset_eq w s doc hd hne
    unfold MainWindow.afterTilesetDialog at hr ⊢
    rw [← htr] at hr ⊢
    rw [hf] at heq
    rw [heq]
    simp only [readTilesetsLoop, hr, List.length_singleton, if_true]
    exact ⟨hkeep _ hdm, by simp [MainWindow.record]⟩
  · intro pre f post hf hlen hpre hr hab
    have hne : s.chosenTilesetFiles w ≠ [] := by
      intro e
      rw [e] at hlen
      simp at hlen
    have hsize : (s.chosenTilesetFiles w).length ≠ 1 := by omega
    obtain ⟨s2, hdm, htr, heq⟩ := addExternalTileset_eq w s doc hd hne
    unfold MainWindow.afterTilesetDialog at hpre hr hab ⊢
    rw [← htr] at hpre hr hab ⊢
    have h1 := readTilesetsLoop_ignored w _ hsize pre [] s2
      (importEvents_of_failuresIgnored w pre s2.trace hpre)
    have h2 := readTilesetsLoop_append w (s.chosenTilesetFiles w).length (f :: post) pre [] _ s2 _
      h1
    rw [← hf] at h2
    rw [heq, h2]
    have hab2 : w.tilesetErrorAnswer
        (MainWindow.record { s2 with trace := s2.trace ++ importEvents w pre s2.trace }
          (Event.readTileset f none)).trace = StandardButton.Abort := by
      simpa [MainWindow.record] using hab
    simp only [readTilesetsLoop, hr, if_neg hsize, hab2, if_true]
    refine ⟨hkeep _ hdm, ?_⟩
    simp [MainWindow.record]
  · intro hlen hall
    have hne : s.chosenTilesetFiles w ≠ [] := by
      intro e
      rw [e] at hlen
      simp at hlen
    have hsize : (s.chosenTilesetFiles w).length ≠ 1 := by omega
    obtain ⟨s2, hdm, htr, heq⟩ := addExternalTileset_eq w s doc hd hne
    unfold MainWindow.afterTilesetDialog at hall ⊢
    rw [← htr] at hall ⊢
    have h1 := readTilesetsLoop_ignored w _ hsize (s.chosenTilesetFiles w) [] s2
      (importEvents_of_failuresIgnored w _ s2.trace hall)
    rw [heq, h1]
    simp only [List.nil_append]
    exact ⟨trivial, importEvents_files w _ _, hmacro _ _ hdm⟩
  · intro f t hf hr
    have hne : s.chosenTilesetFiles w ≠ [] := by rw [hf]; simp
    obtain ⟨s2, hdm, htr, heq⟩ := addExternalTileset_eq w s doc hd hne
    unfold MainWindow.afterTilesetDialog at hr ⊢
    rw [← htr] at hr ⊢
    rw [hf] at heq
    rw [heq]
    simp only [readTilesetsLoop, hr, List.nil_append]
    exact ⟨by simp [MainWindow.record], hmacro [t] _ hdm⟩

/-- C14 at concrete inputs, with one open document and three chosen files of which the
second cannot be read.  When the user ignores the failure the other two tilesets are
added, in the chosen order, in one macro; when the user answers Abort the document stays
as it was although the first tileset had been read, and the third file is not read. -/
theorem C14_addExternalTileset_witness :
    oneDocumentWindow.mMapDocument = some (exampleDocument "a.tmx" false) ∧
    failuresIgnored exampleWorld (oneDocumentWindow.chosenTilesetFiles exampleWorld)
      (oneDocumentWindow.afterTilesetDialog exampleWorld) = true ∧
    (oneDocumentWindow.addExternalTileset exampleWorld).trace =
      [Event.getOpenFileNames ["a.tsx", "missing.tsx", "b.tsx"],
       Event.readTileset "a.tsx" (some { mFileName := "a.tsx" }),
       Event.readTileset "missing.tsx" none,
       Event.warning "Error Reading Tileset" StandardButton.Ignore,
       Event.readTileset "b.tsx" (some { mFileName := "b.tsx" })] ∧
    (oneDocumentWindow.addExternalTileset exampleWorld).mMapDocument =
      some { exampleDocument "a.tmx" true with
        tilesets := [{ mFileName := "a.tsx" }, { mFileName := "b.tsx" }]
        undoStack :=
          { entries := [UndoEntry.macroEntry
              { text := "Add %n Tileset(s)"
                count := 2
                children := [UndoCommand.addTileset { mFileName := "a.tsx" },
                             UndoCommand.addTileset { mFileName := "b.tsx" }] }] } } ∧
    abortingWorld.tilesetErrorAnswer
      [Event.getOpenFileNames ["a.tsx", "missing.tsx", "b.tsx"],
       Event.readTileset "a.tsx" (some { mFileName := "a.tsx" }),
       Event.readTileset "missing.tsx" none] = StandardButton.Abort ∧
    (oneDocumentWindow.addExternalTileset abortingWorld).mMapDocument =
      some (exampleDocument "a.tmx" false) ∧
    (oneDocumentWindow.addExternalTileset abortingWorld).trace =
      [Event.getOpenFileNames ["a.tsx", "missing.tsx", "b.tsx"],
       Event.readTileset "a.tsx" (some { mFileName := "a.tsx" }),
       Event.readTileset "missing.tsx" none,
       Event.warning "Error Reading Tileset" StandardButton.Abort] :=
  ⟨by decide, by decide,
   ((C14_addExternalTileset exampleWorld oneDocumentWindow (exampleDocument "a.tmx" false)
      (by decide)).2.2.1 (by decide) (by decide)).1.trans (by decide),
   by decide, by decide,
   ((C14_addExternalTileset abortingWorld oneDocumentWindow (exampleDocument "a.tmx" false)
      (by decide)).2.1 ["a.tsx"] "missing.tsx" ["b.tsx"] (by decide) (by decide) (by decide)
      (by decide) (by decide)).1,
   ((C14_addExternalTileset abortingWorld oneDocumentWindow (exampleDocument "a.tmx" false)
      (by decide)).2.1 ["a.tsx"] "missing.tsx" ["b.tsx"] (by decide) (by decide) (by decide)
      (by decide) (by decide)).2.trans (by decide)⟩

/-! ### Exporting -/

/-- What the end of `exportAs` does: one write is recorded; when it succeeds the current
document remembers the file name and the format (not the local TMX format), when it
fails the error box follows and the current document stays as it is. -/
theorem writeAndRemember_spec (w : World) (s : MainWindow) (doc : MapDocument)
    (fileName selectedFilter : QString) (c : MapFormatPtr) (hd : s.mMapDocument = some doc) :
    (w.write s.trace c doc fileName = true →
      (s.writeAndRemember w doc fileName selectedFilter c).trace =
          s.trace ++ [Event.write c fileName true] ∧
      ∃ e, (s.writeAndRemember w doc fileName selectedFilter c).mMapDocument = some e ∧
        e.lastExportFileName = fileName ∧ e.exportFormat = exportFormatAfter doc c) ∧
    (w.write s.trace c doc fileName = false →
      (s.writeAndRemember w doc fileName selectedFilter c).trace =
          s.trace ++ [Event.write c fileName false, Event.critical "Error Exporting Map"] ∧
      (s.writeAndRemember w doc fileName selectedFilter c).mMapDocument = some doc) := by
  constructor
  · intro hok
    refine ⟨by simp [MainWindow.writeAndRemember, hok, MainWindow.record], ?_⟩
    cases c with
    | registered g =>
      refine ⟨(doc.setLastExportFileName fileName).setExportFormat (some g), ?_, rfl, rfl⟩
      simp only [MainWindow.writeAndRemember, hok, Bool.not_true, Bool.false_eq_true, if_false]
      exact currentDocument_setCurrentDocument _ doc _ hd
    | localTmx =>
      refine ⟨doc.setLastExportFileName fileName, ?_, rfl, rfl⟩
      simp only [MainWindow.writeAndRemember, hok, Bool.not_true, Bool.false_eq_true, if_false]
      exact currentDocument_setCurrentDocument _ doc _ hd
  · intro hok
    refine ⟨by simp [MainWindow.writeAndRemember, hok, MainWindow.record], ?_⟩
    simp only [MainWindow.writeAndRemember, hok, Bool.not_false, if_true]
    exact hd

/-- One call of `exportAs` in which the user chooses a file name for which a format is
found: the overwrite check and the write follow the dialog. -/
theorem exportAs_chosen (w : World) (s : MainWindow) (doc : MapDocument) (c : MapFormatPtr)
    (fuel : Nat) (hd : s.mMapDocument = some doc) (hf : (s.chosenExport w doc).1 ≠ "")
    (hc : chooseExportFormat w (s.chosenExport w doc).1 (s.chosenExport w doc).2 =
      some (some c)) :
    s.exportAs w (fuel + 1) =
      some ((s.record Event.getSaveFileName).confirmOverwriteAndWrite w doc
        (s.chosenExport w doc).1 (s.chosenExport w doc).2 c) := by
  unfold MainWindow.chosenExport at hf hc ⊢
  simp only [MainWindow.exportAs, hd, if_neg hf, hc]

/-- C15: in a call of `exportAs` in which the user chooses the file `f` and the format `c`
is found for it: if at least one output file of `c` exists and the answer to the overwrite
prompt is not Yes, the only events are the file dialog and the prompt (the map is not
written) and the current document, so its last export file name and export format, is
unchanged; if no output file exists, no prompt is shown and the write follows the file
dialog at once. -/
theorem C15_exportAs_overwrite (w : World) (s : MainWindow) (doc : MapDocument)
    (c : MapFormatPtr) (fuel : Nat) (hd : s.mMapDocument = some doc)
    (hf : (s.chosenExport w doc).1 ≠ "")
    (hc : chooseExportFormat w (s.chosenExport w doc).1 (s.chosenExport w doc).2 =
      some (some c)) :
    ((∃ o ∈ w.outputFiles c doc (s.chosenExport w doc).1,
          w.fileExists (s.trace ++ [Event.getSaveFileName]) o = true) →
      w.overwriteAnswer (s.trace ++ [Event.getSaveFileName]) ≠ StandardButton.Yes →
      ∃ r, s.exportAs w (fuel + 1) = some r ∧
        r.trace = s.trace ++ [Event.getSaveFileName,
          Event.warning "Overwrite Files"
            (w.overwriteAnswer (s.trace ++ [Event.getSaveFileName]))] ∧
        r.mMapDocument = some doc ∧ r.mDocumentManager = s.mDocumentManager) ∧
    ((∀ o ∈ w.outputFiles c doc (s.chosenExport w doc).1,
          w.fileExists (s.trace ++ [Event.getSaveFileName]) o = false) →
      ∃ r, s.exportAs w (fuel + 1) = some r ∧
        r.trace = s.trace ++ Event.getSaveFileName ::
          Event.write c (s.chosenExport w doc).1
            (w.write (s.trace ++ [Event.getSaveFileName]) c doc (s.chosenExport w doc).1) ::
          (if w.write (s.trace ++ [Event.getSaveFileName]) c doc (s.chosenExport w doc).1
            then [] else [Event.critical "Error Exporting Map"])) := by
  have hd1 : (s.record Event.getSaveFileName).mMapDocument = some doc := hd
  rw [exportAs_chosen w s doc c fuel hd hf hc]
  constructor
  · rintro ⟨o, ho, hex⟩ hno
    refine ⟨_, rfl, ?_⟩
    have hlen : (w.outputFiles c doc (s.chosenExport w doc).1).length > 0 :=
      List.length_pos_of_mem ho
    have hany : (w.outputFiles c doc (s.chosenExport w doc).1).any
        (fun outputFile => w.fileExists (s.record Event.getSaveFileName).trace outputFile) =
        true := List.any_eq_true.2 ⟨o, ho, hex⟩
    have hno2 : w.overwriteAnswer (s.record Event.getSaveFileName).trace ≠
        StandardButton.Yes := hno
    simp only [MainWindow.confirmOverwriteAndWrite, if_pos hlen, hany, if_true, ne_eq, hno2,
      not_false_eq_true]
    refine ⟨by simp [MainWindow.record], hd, rfl⟩
  · intro hnone
    refine ⟨_, rfl, ?_⟩
    have hany : (w.outputFiles c doc (s.chosenExport w doc).1).any
        (fun outputFile => w.fileExists (s.record Event.getSaveFileName).trace outputFile) =
        false := by
      rw [List.any_eq_false]
      intro o ho
      simpa using hnone o ho
    have hgo : (s.record Event.getSaveFileName).confirmOverwriteAndWrite w doc
        (s.chosenExport w doc).1 (s.chosenExport w doc).2 c =
        (s.record Event.getSaveFileName).writeAndRemember w doc
          (s.chosenExport w doc).1 (s.chosenExport w doc).2 c := by
      simp only [MainWindow.confirmOverwriteAndWrite, hany]
      split <;> simp
    rw [hgo]
    have hw := writeAndRemember_spec w (s.record Event.getSaveFileName) doc
      (s.chosenExport w doc).1 (s.chosenExport w doc).2 c hd1
    cases hok : w.write (s.trace ++ [Event.getSaveFileName]) c doc (s.chosenExport w doc).1
    · rw [(hw.2 hok).1]; simp [MainWindow.record]
    · rw [(hw.1 hok).1]; simp [MainWindow.record]

/-- C15 at a concrete input: the file chosen in `exampleWorld` exists and the user answers
No, so nothing is written and the document is untouched. -/
theorem C15_exportAs_overwrite_witness :
    ∃ r, oneDocumentWindow.exportAs exampleWorld 1 = some r ∧
      r.trace = oneDocumentWindow.trace ++ [Event.getSaveFileName,
        Event.warning "Overwrite Files"
          (exampleWorld.overwriteAnswer (oneDocumentWindow.trace ++ [Event.getSaveFileName]))] ∧
      r.mMapDocument = some (exampleDocument "a.tmx" false) ∧
      r.mDocumentManager = oneDocumentWindow.mDocumentManager :=
  (C15_exportAs_overwrite exampleWorld oneDocumentWindow (exampleDocument "a.tmx" false)
    MapFormatPtr.localTmx 0 (by decide) (by decide) (by decide)).1
    ⟨"untitled.tmx", by decide, by decide⟩ (by decide)

/-- One call of `exportAs` in which the user chooses a file name for which a format is
found and the write is reached (no output file exists, or the user agrees to overwrite):
the end of `exportAs` runs after the file dialog and the overwrite question, if asked. -/
theorem exportAs_reaches_write (w : World) (s : MainWindow) (doc : MapDocument)
    (c : MapFormatPtr) (fuel : Nat) (hd : s.mMapDocument = some doc)
    (hf : (s.chosenExport w doc).1 ≠ "")
    (hc : chooseExportFormat w (s.chosenExport w doc).1 (s.chosenExport w doc).2 =
      some (some c))
    (hgo : (∃ o ∈ w.outputFiles c doc (s.chosenExport w doc).1,
        w.fileExists (s.trace ++ [Event.getSaveFileName]) o = true) →
      w.overwriteAnswer (s.trace ++ [Event.getSaveFileName]) = StandardButton.Yes) :
    s.exportAs w (fuel + 1) =
      some (((s.record Event.getSaveFileName).recordAll
        (overwritePrompt w (s.trace ++ [Event.getSaveFileName]) c doc
          (s.chosenExport w doc).1)).writeAndRemember w
        doc (s.chosenExport w doc).1 (s.chosenExport w doc).2 c) := by
  rw [exportAs_chosen w s doc c fuel hd hf hc]
  have htr : (s.record Event.getSaveFileName).trace = s.trace ++ [Event.getSaveFileName] := rfl
  by_cases hany : (w.outputFiles c doc (s.chosenExport w doc).1).any
      (fun outputFile => w.fileExists (s.trace ++ [Event.getSaveFileName]) outputFile) = true
  · obtain ⟨o, ho, hex⟩ := List.any_eq_true.1 hany
    have hlen : (w.outputFiles c doc (s.chosenExport w doc).1).length > 0 :=
      List.length_pos_of_mem ho
    have hyes := hgo ⟨o, ho, hex⟩
    simp only [MainWindow.confirmOverwriteAndWrite, htr, if_pos hlen, hany, if_true, hyes,
      overwritePrompt, ne_eq, not_true_eq_false, if_false]
    rfl
  · have hany2 : (w.outputFiles c doc (s.chosenExport w doc).1).any
        (fun outputFile => w.fileExists (s.trace ++ [Event.getSaveFileName]) outputFile) =
        false := by
      simpa using hany
    have he : (s.record Event.getSaveFileName).recordAll [] = s.record Event.getSaveFileName := by
      simp [MainWindow.recordAll]
    simp only [MainWindow.confirmOverwriteAndWrite, htr, hany2, overwritePrompt,
      Bool.false_eq_true, if_false, he]
    split <;> rfl

/-- C16: in a call of `exportAs` in which the user chooses the file `f`, the format `c` is
found for it, and the write is reached (no output file exists, or the user agrees to
overwrite), everything hangs on what `c` answers when it is asked to write the map to `f`
after the file dialog and the overwrite question.  When the write succeeds, the current
document's last export file name becomes `f` and its export format becomes `c`, unless `c`
is the local TMX format, which leaves the export format as it was.  When the write fails,
the error box is shown and the current document (so both export parameters) is
unchanged.  In both cases the map is written exactly once. -/
theorem C16_exportAs_remembers (w : World) (s : MainWindow) (doc : MapDocument)
    (c : MapFormatPtr) (fuel : Nat) (hd : s.mMapDocument = some doc)
    (hf : (s.chosenExport w doc).1 ≠ "")
    (hc : chooseExportFormat w (s.chosenExport w doc).1 (s.chosenExport w doc).2 =
      some (some c))
    (hgo : (∃ o ∈ w.outputFiles c doc (s.chosenExport w doc).1,
        w.fileExists (s.trace ++ [Event.getSaveFileName]) o = true) →
      w.overwriteAnswer (s.trace ++ [Event.getSaveFileName]) = StandardButton.Yes) :
    (w.write (s.trace ++ [Event.getSaveFileName] ++
        overwritePrompt w (s.trace ++ [Event.getSaveFileName]) c doc (s.chosenExport w doc).1)
        c doc (s.chosenExport w doc).1 = true →
      ∃ r, s.exportAs w (fuel + 1) = some r ∧
        r.trace = s.trace ++ [Event.getSaveFileName] ++
          overwritePrompt w (s.trace ++ [Event.getSaveFileName]) c doc
            (s.chosenExport w doc).1 ++
          [Event.write c (s.chosenExport w doc).1 true] ∧
        ∃ e, r.mMapDocument = some e ∧ e.lastExportFileName = (s.chosenExport w doc).1 ∧
          e.exportFormat = exportFormatAfter doc c) ∧
    (w.write (s.trace ++ [Event.getSaveFileName] ++
        overwritePrompt w (s.trace ++ [Event.getSaveFileName]) c doc (s.chosenExport w doc).1)
        c doc (s.chosenExport w doc).1 = false →
      ∃ r, s.exportAs w (fuel + 1) = some r ∧
        r.trace = s.trace ++ [Event.getSaveFileName] ++
          overwritePrompt w (s.trace ++ [Event.getSaveFileName]) c doc
            (s.chosenExport w doc).1 ++
          [Event.write c (s.chosenExport w doc).1 false, Event.critical "Error Exporting Map"] ∧
        r.mMapDocument = some doc) := by
  rw [exportAs_reaches_write w s doc c fuel hd hf hc hgo]
  have hw := writeAndRemember_spec w
    ((s.record Event.getSaveFileName).recordAll
      (overwritePrompt w (s.trace ++ [Event.getSaveFileName]) c doc (s.chosenExport w doc).1))
    doc (s.chosenExport w doc).1 (s.chosenExport w doc).2 c hd
  exact ⟨fun hok => ⟨_, rfl, hw.1 hok⟩, fun hok => ⟨_, rfl, hw.2 hok⟩⟩

/-- C16 at concrete inputs: the file "untitled.tmx" exists and the user agrees to
overwrite it.  In `overwritingWorld` the export of "a.tmx" with the local TMX format
succeeds: the file name is remembered and the export format stays unset.  In
`readOnlyWorld` the write fails: the document is as it was. -/
theorem C16_exportAs_remembers_witness :
    overwritingWorld.write
      [Event.getSaveFileName, Event.warning "Overwrite Files" StandardButton.Yes]
      MapFormatPtr.localTmx (exampleDocument "a.tmx" false) "untitled.tmx" = true ∧
    (∃ r, oneDocumentWindow.exportAs overwritingWorld 1 = some r ∧
      r.trace = [Event.getSaveFileName, Event.warning "Overwrite Files" StandardButton.Yes,
        Event.write MapFormatPtr.localTmx "untitled.tmx" true] ∧
      ∃ e, r.mMapDocument = some e ∧ e.lastExportFileName = "untitled.tmx" ∧
        e.exportFormat = none) ∧
    readOnlyWorld.write
      [Event.getSaveFileName, Event.warning "Overwrite Files" StandardButton.Yes]
      MapFormatPtr.localTmx (exampleDocument "a.tmx" false) "untitled.tmx" = false ∧
    (∃ r, oneDocumentWindow.exportAs readOnlyWorld 1 = some r ∧
      r.trace = [Event.getSaveFileName, Event.warning "Overwrite Files" StandardButton.Yes,
        Event.write MapFormatPtr.localTmx "untitled.tmx" false,
        Event.critical "Error Exporting Map"] ∧
      r.mMapDocument = some (exampleDocument "a.tmx" false)) :=
  ⟨by decide,
   (C16_exportAs_remembers overwritingWorld oneDocumentWindow (exampleDocument "a.tmx" false)
      MapFormatPtr.localTmx 0 (by decide) (by decide) (by decide) (by decide)).1 (by decide),
   by decide,
   (C16_exportAs_remembers readOnlyWorld oneDocumentWindow (exampleDocument "a.tmx" false)
      MapFormatPtr.localTmx 0 (by decide) (by decide) (by decide) (by decide)).2 (by decide)⟩

/-- C17: without a current document `export_` does nothing.  With a current document
`export_` is `exportAs` when the last export file name is empty; otherwise it writes with
the document's export format, or with the local TMX format when the document has none,
and on success it shows a status message and is done, while on failure it shows the error
and is `exportAs`.  With no call of `exportAs` allowed (fuel 0) `export_` therefore fails
exactly when the last export file name is empty or the write fails. -/
theorem C17_export (w : World) (fuel : Nat) (s : MainWindow) :
    (s.mMapDocument = none → s.export_ w fuel = some s) ∧
    (∀ doc, s.mMapDocument = some doc →
      (doc.lastExportFileName = "" → s.export_ w fuel = s.exportAs w fuel) ∧
      (doc.lastExportFileName ≠ "" →
        w.write s.trace doc.exportFormatOrTmx doc doc.lastExportFileName = true →
        s.export_ w fuel =
          some ((s.record (Event.write doc.exportFormatOrTmx doc.lastExportFileName true)).record
            (Event.statusMessage ("Exported to " ++ doc.lastExportFileName)))) ∧
      (doc.lastExportFileName ≠ "" →
        w.write s.trace doc.exportFormatOrTmx doc doc.lastExportFileName = false →
        s.export_ w fuel =
          ((s.record (Event.write doc.exportFormatOrTmx doc.lastExportFileName false)).record
            (Event.critical "Error Exporting Map")).exportAs w fuel) ∧
      (s.export_ w 0 = none ↔
        (doc.lastExportFileName = "" ∨
          w.write s.trace doc.exportFormatOrTmx doc doc.lastExportFileName = false)) ∧
      (doc.exportFormatOrTmx =
        match doc.exportFormat with
        | some format => MapFormatPtr.registered format
        | none => MapFormatPtr.localTmx)) := by
  constructor
  · intro h
    simp [MainWindow.export_, h]
  · intro doc hd
    refine ⟨?_, ?_, ?_, ?_, rfl⟩
    · intro hn
      simp [MainWindow.export_, hd, hn]
    · intro hn hok
      simp [MainWindow.export_, hd, hn, hok]
    · intro hn hok
      simp [MainWindow.export_, hd, hn, hok]
    · by_cases hn : doc.lastExportFileName = ""
      · simp [MainWindow.export_, hd, hn, MainWindow.exportAs]
      · cases hok : w.write s.trace doc.exportFormatOrTmx doc doc.lastExportFileName <;>
          simp [MainWindow.export_, hd, hn, hok, MainWindow.exportAs]

/-- C17 at a concrete input: the document was exported to "out.tmx" before; `export_` writes
there again with the local TMX format and does not ask anything. -/
theorem C17_export_witness :
    ({ emptyWindow with
        mDocumentManager :=
          { mDocuments := [{ exampleDocument "a.tmx" false with mLastExportFileName := "out.tmx" }]
            currentIndex := 0 } } : MainWindow).export_ exampleWorld 0 =
      some { emptyWindow with
        mDocumentManager :=
          { mDocuments := [{ exampleDocument "a.tmx" false with mLastExportFileName := "out.tmx" }]
            currentIndex := 0 }
        trace := [Event.write MapFormatPtr.localTmx "out.tmx" true,
                  Event.statusMessage "Exported to out.tmx"] } :=
  ((C17_export exampleWorld 0
    { emptyWindow with
      mDocumentManager :=
        { mDocuments := [{ exampleDocument "a.tmx" false with mLastExportFileName := "out.tmx" }]
          currentIndex := 0 } }).2
    { exampleDocument "a.tmx" false with mLastExportFileName := "out.tmx" } (by decide)).2.1
    (by decide) (by decide) |>.trans (by decide)

/-! ### The stored session -/

/-- The loop of `writeSettings` appends, to each of the five lists, one entry per document
in document order. -/
theorem writeSettingsLoop_eq (w : World) (docs : List MapDocument) :
    ∀ lists : SessionLists, writeSettingsLoop w docs lists =
      { fileList := lists.fileList ++ docs.map MapDocument.fileName
        mapScales := lists.mapScales ++ docs.map (fun d => w.numberOfScale d.mapView.scale)
        scrollX := lists.scrollX ++
          docs.map (fun d => w.numberOfInt d.mapView.horizontalSliderPosition)
        scrollY := lists.scrollY ++
          docs.map (fun d => w.numberOfInt d.mapView.verticalSliderPosition)
        selectedLayer := lists.selectedLayer ++
          docs.map (fun d => w.numberOfInt d.currentLayerIndex) } := by
  induction docs with
  | nil => intro lists; simp [writeSettingsLoop]
  | cons d ds ih => intro lists; simp [writeSettingsLoop, ih]

/-- On the lists that `writeSettings` stores, followed by any further file names, the loop
of `openLastFiles` opens every stored document in document order, skipping none of them;
the further file names have no view data and are passed over. -/
theorem openLastFilesLoop_stored (w : World) (docs : List MapDocument) (extra : List QString) :
    ∀ (remaining i : Nat) (s : MainWindow), i + remaining = docs.length + extra.length →
      openLastFilesLoop w (docs.map MapDocument.fileName ++ extra)
        (docs.map (fun d => w.numberOfScale d.mapView.scale))
        (docs.map (fun d => w.numberOfInt d.mapView.horizontalSliderPosition))
        (docs.map (fun d => w.numberOfInt d.mapView.verticalSliderPosition))
        (docs.map (fun d => w.numberOfInt d.currentLayerIndex)) remaining i s =
      (docs.drop i).foldl (MainWindow.openStored w) s := by
  intro remaining
  induction remaining with
  | zero =>
    intro i s h
    rw [List.drop_eq_nil_of_le (by omega)]
    rfl
  | succ k ih =>
    intro i s h
    by_cases hi : i < docs.length
    · have hdrop : docs.drop i = docs[i] :: docs.drop (i + 1) := List.drop_eq_getElem_cons hi
      rw [hdrop, List.foldl_cons, ← ih (i + 1) _ (by omega)]
      simp only [openLastFilesLoop, List.length_map, hi, not_true_eq_false, if_false]
      have e1 : (docs.map MapDocument.fileName ++ extra).getD i "" = docs[i].fileName := by
        simp [List.getD_eq_getElem?_getD, List.getElem?_append_left, hi]
      have e2 : ∀ f : MapDocument → QString, (docs.map f).getD i "" = f docs[i] := by
        intro f
        simp [List.getD_eq_getElem?_getD, hi]
      rw [e1, e2, e2, e2, e2]
      rfl
    · rw [List.drop_eq_nil_of_le (by omega), List.foldl_nil]
      simp only [openLastFilesLoop, List.length_map, hi, not_false_eq_true, if_true]
      rw [ih (i + 1) s (by omega), List.drop_eq_nil_of_le (by omega)]
      rfl

/-- Two full keys with different last sections differ. -/
theorem append_key_ne (g l : List QString) (a b : QString) (h : a ≠ b) :
    g ++ [a] ≠ l ++ [b] := by
  intro e
  have e2 := congrArg List.getLast? e
  simp at e2
  exact h e2

/-- A key whose last section is not `fileNames` is not the key `recentFiles/fileNames`. -/
theorem key_ne_fileNames (g : List QString) (a : QString) (h : a ≠ "fileNames") :
    g ++ [a] ≠ ["recentFiles", "fileNames"] :=
  append_key_ne g ["recentFiles"] a "fileNames" h

/-- Reading back the five lists of a session, in the group in which they were stored. -/
theorem sessionLists_stored (x : MainWindow) (a b c d e : List QString) :
    let y := ((((x.setStringListValue ["lastOpenFiles"] a).setStringListValue ["mapScale"]
      b).setStringListValue ["scrollX"] c).setStringListValue ["scrollY"]
      d).setStringListValue ["selectedLayer"] e
    y.mSettingsGroup = x.mSettingsGroup ∧
    y.stringListValue ["lastOpenFiles"] = a ∧
    y.stringListValue ["mapScale"] = b ∧
    y.stringListValue ["scrollX"] = c ∧
    y.stringListValue ["scrollY"] = d ∧
    y.stringListValue ["selectedLayer"] = e := by
  have h1 := key_ne_fileNames x.mSettingsGroup "lastOpenFiles" (by decide)
  have h2 := key_ne_fileNames x.mSettingsGroup "mapScale" (by decide)
  have h3 := key_ne_fileNames x.mSettingsGroup "scrollX" (by decide)
  have h4 := key_ne_fileNames x.mSettingsGroup "scrollY" (by decide)
  have h5 := key_ne_fileNames x.mSettingsGroup "selectedLayer" (by decide)
  simp [MainWindow.setStringListValue, MainWindow.stringListValue, h1, h2, h3, h4, h5, lookupKey]

/-- Removing a key that is not valid changes nothing. -/
theorem removeNumber_of_none (x : MainWindow) (key : List QString)
    (h : x.numberValue key = none) : x.removeNumber key = x := by
  unfold MainWindow.numberValue at h
  unfold MainWindow.removeNumber
  have e : ∀ l : List (List QString × Int), lookupKey (x.mSettingsGroup ++ key) l = none →
      l.filter (fun entry => decide (entry.1 ≠ x.mSettingsGroup ++ key)) = l := by
    intro l
    induction l with
    | nil => intro _; rfl
    | cons entry rest ih =>
      intro hl
      obtain ⟨k, v⟩ := entry
      by_cases hk : k = x.mSettingsGroup ++ key
      · simp [lookupKey, hk] at hl
      · simp only [lookupKey, if_neg hk] at hl
        rw [List.filter_cons_of_pos (by simpa using hk), ih hl]
  rw [e _ h]

/-- The backwards compatibility mode appends its file names behind the stored ones. -/
theorem appendRecentFiles_eq (recentFiles : List QString) (openCount : Nat) :
    ∀ lastOpenFiles : List QString, ∃ extra : List QString,
      appendRecentFiles recentFiles openCount lastOpenFiles = lastOpenFiles ++ extra := by
  induction openCount with
  | zero => intro l; exact ⟨[], by simp [appendRecentFiles]⟩
  | succ k ih =>
    intro l
    obtain ⟨extra, he⟩ := ih (l ++ [recentFiles.getD k ""])
    refine ⟨recentFiles.getD k "" :: extra, ?_⟩
    rw [appendRecentFiles, he, List.append_assoc]
    rfl

/-- The five lists that `writeSettings` stored, read in the group `recentFiles`. -/
theorem writeSettings_stored (w : World) (s : MainWindow) :
    ((s.writeSettings w).beginGroup "recentFiles").stringListValue ["lastOpenFiles"] =
        s.mDocumentManager.documents.map MapDocument.fileName ∧
      ((s.writeSettings w).beginGroup "recentFiles").stringListValue ["mapScale"] =
        s.mDocumentManager.documents.map (fun d => w.numberOfScale d.mapView.scale) ∧
      ((s.writeSettings w).beginGroup "recentFiles").stringListValue ["scrollX"] =
        s.mDocumentManager.documents.map
          (fun d => w.numberOfInt d.mapView.horizontalSliderPosition) ∧
      ((s.writeSettings w).beginGroup "recentFiles").stringListValue ["scrollY"] =
        s.mDocumentManager.documents.map
          (fun d => w.numberOfInt d.mapView.verticalSliderPosition) ∧
      ((s.writeSettings w).beginGroup "recentFiles").stringListValue ["selectedLayer"] =
        s.mDocumentManager.documents.map (fun d => w.numberOfInt d.currentLayerIndex) := by
  have hl : writeSettingsLoop w s.mDocumentManager.documents {} =
      { fileList := s.mDocumentManager.documents.map MapDocument.fileName
        mapScales := s.mDocumentManager.documents.map (fun d => w.numberOfScale d.mapView.scale)
        scrollX := s.mDocumentManager.documents.map
          (fun d => w.numberOfInt d.mapView.horizontalSliderPosition)
        scrollY := s.mDocumentManager.documents.map
          (fun d => w.numberOfInt d.mapView.verticalSliderPosition)
        selectedLayer := s.mDocumentManager.documents.map
          (fun d => w.numberOfInt d.currentLayerIndex) } := by
    rw [writeSettingsLoop_eq]
    simp
  have hx : ∀ x : MainWindow, x.mSettingsGroup = s.mSettingsGroup ++ ["recentFiles"] →
      ∀ key, (x.endGroup.beginGroup "recentFiles").stringListValue key =
        x.stringListValue key := by
    intro x hg key
    simp [MainWindow.endGroup, MainWindow.beginGroup, MainWindow.stringListValue, hg]
  generalize hx0 : (match (s.beginGroup "recentFiles").mDocumentManager.currentDocument with
    | some document => (s.beginGroup "recentFiles").setStringValue ["lastActive"] document.fileName
    | none => s.beginGroup "recentFiles") = x0
  have hg0 : x0.mSettingsGroup = s.mSettingsGroup ++ ["recentFiles"] := by
    rw [← hx0]
    split <;> rfl
  have hst := sessionLists_stored x0
    (s.mDocumentManager.documents.map MapDocument.fileName)
    (s.mDocumentManager.documents.map (fun d => w.numberOfScale d.mapView.scale))
    (s.mDocumentManager.documents.map (fun d => w.numberOfInt d.mapView.horizontalSliderPosition))
    (s.mDocumentManager.documents.map (fun d => w.numberOfInt d.mapView.verticalSliderPosition))
    (s.mDocumentManager.documents.map (fun d => w.numberOfInt d.currentLayerIndex))
  have hw : s.writeSettings w = (((((x0.setStringListValue ["lastOpenFiles"]
      (s.mDocumentManager.documents.map MapDocument.fileName)).setStringListValue ["mapScale"]
      (s.mDocumentManager.documents.map (fun d => w.numberOfScale d.mapView.scale))).setStringListValue
      ["scrollX"] (s.mDocumentManager.documents.map
        (fun d => w.numberOfInt d.mapView.horizontalSliderPosition))).setStringListValue ["scrollY"]
      (s.mDocumentManager.documents.map
        (fun d => w.numberOfInt d.mapView.verticalSliderPosition))).setStringListValue
      ["selectedLayer"]
      (s.mDocumentManager.documents.map (fun d => w.numberOfInt d.currentLayerIndex))).endGroup := by
    rw [← hx0]
    unfold MainWindow.writeSettings
    have hd : (s.beginGroup "recentFiles").mDocumentManager = s.mDocumentManager := rfl
    simp only [hd]
    cases s.mDocumentManager.currentDocument with
    | none => simp only [hd, hl]
    | some document =>
      have hd2 : ((s.beginGroup "recentFiles").setStringValue ["lastActive"]
          document.fileName).mDocumentManager = s.mDocumentManager := rfl
      simp only [hd2, hl]
  rw [hw]
  simp only [hx _ (hst.1.trans hg0)]
  exact hst.2

/-- C18, as stated, fails: `writeSettings` leaves the key `recentOpenedFiles` of older
versions in place, and with it valid `openLastFiles` goes through the two stored files
and one recent file behind them, while each of the lists with per-document data has two
entries; index 2 is passed over and its file is never loaded.  With a negative count the
backwards compatibility mode indexes the recent files out of range. -/
theorem C18_counterexample :
    ((((legacyWindow 1).writeSettings exampleWorld).beginGroup
        "recentFiles").readLastOpenFiles).map Prod.fst = some ["a.tmx", "b.tmx", "x.tmx"] ∧
    ((((legacyWindow 1).writeSettings exampleWorld).beginGroup "recentFiles").stringListValue
        ["mapScale"]).length = 2 ∧
    (({ (legacyWindow 1).writeSettings exampleWorld with
          mDocumentManager := emptyWindow.mDocumentManager, trace := [] } :
        MainWindow).openLastFiles exampleWorld).map (fun r => r.trace) =
      some [Event.load "a.tmx", Event.load "b.tmx"] ∧
    ({ (legacyWindow (-1)).writeSettings exampleWorld with
          mDocumentManager := emptyWindow.mDocumentManager, trace := [] } :
        MainWindow).openLastFiles exampleWorld = none := by
  decide

/-- C18 (amended): `writeSettings` stores exactly one entry per open document, in
document order, in each of the five lists `lastOpenFiles`, `mapScale`, `scrollX`,
`scrollY` and `selectedLayer` of the group `recentFiles`, so all five have length
`documentCount` and every index of `lastOpenFiles` has its per-document data.
`openLastFiles`, run on these settings with any documents open and anything having
happened, the key `recentOpenedFiles` of older versions being absent or holding a count
that is not negative, opens every stored file in document order, restoring the view after
each successful open, and skips no index of a stored file: its result is that of opening
the stored documents one after the other without any index check, in the open group,
then switching to the document that was active last.  File names that the backwards
compatibility mode appends have no per-document data and add nothing to that result. -/
theorem C18_writeSettings_session (w : World) (s : MainWindow) :
    (((s.writeSettings w).beginGroup "recentFiles").stringListValue ["lastOpenFiles"] =
        s.mDocumentManager.documents.map MapDocument.fileName ∧
      ((s.writeSettings w).beginGroup "recentFiles").stringListValue ["mapScale"] =
        s.mDocumentManager.documents.map (fun d => w.numberOfScale d.mapView.scale) ∧
      ((s.writeSettings w).beginGroup "recentFiles").stringListValue ["scrollX"] =
        s.mDocumentManager.documents.map
          (fun d => w.numberOfInt d.mapView.horizontalSliderPosition) ∧
      ((s.writeSettings w).beginGroup "recentFiles").stringListValue ["scrollY"] =
        s.mDocumentManager.documents.map
          (fun d => w.numberOfInt d.mapView.verticalSliderPosition) ∧
      ((s.writeSettings w).beginGroup "recentFiles").stringListValue ["selectedLayer"] =
        s.mDocumentManager.documents.map (fun d => w.numberOfInt d.currentLayerIndex)) ∧
    ((((((s.writeSettings w).beginGroup "recentFiles").stringListValue
          ["lastOpenFiles"]).length : Nat) : Int) = s.mDocumentManager.documentCount ∧
      (((((s.writeSettings w).beginGroup "recentFiles").stringListValue
          ["mapScale"]).length : Nat) : Int) = s.mDocumentManager.documentCount ∧
      (((((s.writeSettings w).beginGroup "recentFiles").stringListValue
          ["scrollX"]).length : Nat) : Int) = s.mDocumentManager.documentCount ∧
      (((((s.writeSettings w).beginGroup "recentFiles").stringListValue
          ["scrollY"]).length : Nat) : Int) = s.mDocumentManager.documentCount ∧
      (((((s.writeSettings w).beginGroup "recentFiles").stringListValue
          ["selectedLayer"]).length : Nat) : Int) = s.mDocumentManager.documentCount) ∧
    (∀ (dm : DocumentManager) (t : List Event),
      (∀ n : Int, ((s.writeSettings w).beginGroup "recentFiles").numberValue
        ["recentOpenedFiles"] = some n → 0 ≤ n) →
      ({ s.writeSettings w with mDocumentManager := dm, trace := t } : MainWindow).openLastFiles w =
        some
          (((s.mDocumentManager.documents.foldl (MainWindow.openStored w)
            ((({ s.writeSettings w with mDocumentManager := dm, trace := t } :
              MainWindow).beginGroup "recentFiles").removeNumber
                ["recentOpenedFiles"])).switchToLastActive
            ((s.mDocumentManager.documents.foldl (MainWindow.openStored w)
              ((({ s.writeSettings w with mDocumentManager := dm, trace := t } :
                MainWindow).beginGroup "recentFiles").removeNumber
                  ["recentOpenedFiles"])).stringValue ["lastActive"])).endGroup)) := by
  obtain ⟨h1, h2, h3, h4, h5⟩ := writeSettings_stored w s
  refine ⟨⟨h1, h2, h3, h4, h5⟩, ?_, ?_⟩
  · rw [h1, h2, h3, h4, h5]
    simp [DocumentManager.documentCount, DocumentManager.documents]
  · generalize s.writeSettings w = ws at h1 h2 h3 h4 h5 ⊢
    intro dm t hlegacy
    generalize hb : (({ ws with mDocumentManager := dm, trace := t } :
      MainWindow).beginGroup "recentFiles") = b
    have hv : ∀ key, b.stringListValue key =
        (ws.beginGroup "recentFiles").stringListValue key := by
      intro key
      rw [← hb]
      simp only [MainWindow.stringListValue, MainWindow.beginGroup]
    have hn : b.numberValue ["recentOpenedFiles"] =
        (ws.beginGroup "recentFiles").numberValue ["recentOpenedFiles"] := by
      rw [← hb]
      simp only [MainWindow.numberValue, MainWindow.beginGroup]
    have hr : ∀ key, (b.removeNumber ["recentOpenedFiles"]).stringListValue key =
        b.stringListValue key := by
      intro key
      simp only [MainWindow.stringListValue, MainWindow.removeNumber]
    have hfirst : ∃ extra, b.readLastOpenFiles =
        some (s.mDocumentManager.documents.map MapDocument.fileName ++ extra,
          b.removeNumber ["recentOpenedFiles"]) := by
      unfold MainWindow.readLastOpenFiles
      cases hc : b.numberValue ["recentOpenedFiles"] with
      | none =>
        refine ⟨[], ?_⟩
        simp only [List.append_nil]
        rw [removeNumber_of_none b _ hc, hv, h1]
      | some n =>
        have hn0 : 0 ≤ n := hlegacy n (hn ▸ hc)
        obtain ⟨extra, he⟩ := appendRecentFiles_eq (b.stringListValue ["fileNames"])
          (min n ((b.stringListValue ["fileNames"]).length : Int)).toNat
          (b.stringListValue ["lastOpenFiles"])
        refine ⟨extra, ?_⟩
        have hneg : ¬ (min n ((b.stringListValue ["fileNames"]).length : Int) < 0) := by
          omega
        simp only [if_neg hneg, he]
        rw [hv ["lastOpenFiles"], h1]
    obtain ⟨extra, hfirst⟩ := hfirst
    have hloop := openLastFilesLoop_stored w s.mDocumentManager.documents extra
      (s.mDocumentManager.documents.map MapDocument.fileName ++ extra).length 0
      (b.removeNumber ["recentOpenedFiles"]) (by simp)
    simp only [List.drop_zero] at hloop
    unfold MainWindow.openLastFiles
    simp only [hb, hfirst, hr, hv, h2, h3, h4, h5]
    rw [hloop]
    rfl

/-- C18 (amended) at a concrete input: two open documents give five lists of two entries,
and opening the stored session in a fresh main window, with the key of older versions
holding the count 1, opens both stored files. -/
theorem C18_writeSettings_session_witness :
    (((legacyWindow 1).writeSettings exampleWorld).beginGroup "recentFiles").stringListValue
        ["lastOpenFiles"] = ["a.tmx", "b.tmx"] ∧
    (∀ n : Int, (((legacyWindow 1).writeSettings exampleWorld).beginGroup "recentFiles").numberValue
        ["recentOpenedFiles"] = some n → 0 ≤ n) ∧
    (({ (legacyWindow 1).writeSettings exampleWorld with
          mDocumentManager := emptyWindow.mDocumentManager, trace := [] } :
        MainWindow).openLastFiles exampleWorld).map
      (fun r => r.mDocumentManager.documents.map MapDocument.fileName) =
        some ["a.tmx", "b.tmx"] :=
  ⟨(C18_writeSettings_session exampleWorld (legacyWindow 1)).1.1.trans (by decide),
   by decide,
   (congrArg (Option.map fun r => r.mDocumentManager.documents.map MapDocument.fileName)
      ((C18_writeSettings_session exampleWorld (legacyWindow 1)).2.2
        emptyWindow.mDocumentManager [] (by decide))).trans (by decide)⟩

end Tiled
